import Mathlib

/-!
# Verification development for three backend adapters

* `tensorflow/core/kernels/gpu_fusion_ops_custom.cu.cc`: the fused add+ReLU GPU kernels;
* `tensorflow/stream_executor/rocm/rocsolver_wrapper.h`: the rocsolver call shims;
* `tensorflow/stream_executor/tpu/tpu_executor.cc`: the TPU executor facade.

The file has two parts: the embedding of the code (definitions), then the theorems.
-/

namespace tensorflow

/-! ## Part 1. The embedding of the code -/

/-- The class `Status`: an error code (`0` is `OK`) and an error message. -/
structure Status where
  code : Nat
  error_message : String
deriving DecidableEq, Repr

/-- `Status::OK()`. -/
def Status.OK : Status := ⟨0, ""⟩

/-- `Status::ok()`. -/
def Status.ok (s : Status) : Bool := s.code == 0

/-! ### Part 1a. GPU kernels (`gpu_fusion_ops_custom.cu.cc`) -/

namespace rocm_kernels

/-- Launch geometry of a 1-D kernel launch: `gridDim.x` blocks of `blockDim.x` threads.
A launch has at least one block and one thread per block. -/
structure LaunchDims where
  gridDim : Nat
  blockDim : Nat
  gridDim_pos : 0 < gridDim
  blockDim_pos : 0 < blockDim

/-- The loop `for (index = start; index < nthreads; index += stride) body`, run by one thread.
The first argument bounds the number of iterations. -/
def gridStrideLoop {σ : Type} (stride : Nat) (nthreads : Int) (body : Nat → σ → σ) :
    Nat → Nat → σ → σ
  | 0, _, s => s
  | fuel + 1, index, s =>
    if (index : Int) < nthreads then
      gridStrideLoop stride nthreads body fuel (index + stride) (body index s)
    else s

/-- Modelled from the spec: the macro `GPU_1D_KERNEL_LOOP(index, nthreads)` of
`gpu_kernel_helper.h`, which is not among the sources. It is the elementwise loop of a 1-D
kernel: the thread `threadIdx` of block `blockIdx` starts at its global id
`blockIdx * blockDim + threadIdx` and advances by the number of launched threads
`blockDim * gridDim` while `index < nthreads`. Every iteration advances the index by at
least one, so `nthreads` iterations are enough to leave the loop. -/
def GPU_1D_KERNEL_LOOP {σ : Type} (d : LaunchDims) (blockIdx threadIdx : Nat) (nthreads : Int)
    (body : Nat → σ → σ) (s : σ) : σ :=
  gridStrideLoop (d.blockDim * d.gridDim) nthreads body nthreads.toNat
    (blockIdx * d.blockDim + threadIdx) s

/-- The kernel launch `GPU_LAUNCH_KERNEL(kernel, gridDim, blockDim, ...)`: every thread of every
block runs the kernel body on the shared device memory `s`. The threads of these kernels write
pairwise different cells and read only their inputs, so they are run one after the other. -/
def GPU_LAUNCH_KERNEL {σ : Type} (d : LaunchDims) (kernel : Nat → Nat → σ → σ) (s : σ) : σ :=
  (List.range d.gridDim).foldl
    (fun s blockIdx => (List.range d.blockDim).foldl (fun s threadIdx => kernel blockIdx threadIdx s) s)
    s

/-- The body of `AddReluKernel(int nthreads, const float* in0, const float* in1, float* out)`
as run by one thread: `out[index] = fmaxf(0.0f, in0[index] + in1[index])`. The element type is
an exact ordered field. -/
def AddReluKernel {α : Type} [LinearOrderedField α] (d : LaunchDims) (blockIdx threadIdx : Nat)
    (nthreads : Int) (in0 in1 : Nat → α) (out : Nat → α) : Nat → α :=
  GPU_1D_KERNEL_LOOP d blockIdx threadIdx nthreads
    (fun index out => Function.update out index (max 0 (in0 index + in1 index))) out

/-- The body of `AddNReluGradKernel(int nthreads, const float* in0, const float* in1,
const float* in2, float* out)` as run by one thread:
`out[index] = (in2[index] > 0.0f) ? (in0[index] + in1[index]) : 0.0f`. -/
def AddNReluGradKernel {α : Type} [LinearOrderedField α] (d : LaunchDims)
    (blockIdx threadIdx : Nat) (nthreads : Int) (in0 in1 in2 : Nat → α) (out : Nat → α) :
    Nat → α :=
  GPU_1D_KERNEL_LOOP d blockIdx threadIdx nthreads
    (fun index out =>
      Function.update out index (if in2 index > 0 then in0 index + in1 index else 0)) out

/-- The launch made by `FusionAddRelu`: `AddReluKernel` on the whole grid, with
`nthreads = config.virtual_thread_count`. -/
def launchAddRelu {α : Type} [LinearOrderedField α] (d : LaunchDims) (nthreads : Int)
    (in0 in1 : Nat → α) (out : Nat → α) : Nat → α :=
  GPU_LAUNCH_KERNEL d (fun b t out => AddReluKernel d b t nthreads in0 in1 out) out

/-- The launch made by `FusionAddNReluGrad`: `AddNReluGradKernel` on the whole grid. -/
def launchAddNReluGrad {α : Type} [LinearOrderedField α] (d : LaunchDims) (nthreads : Int)
    (in0 in1 in2 : Nat → α) (out : Nat → α) : Nat → α :=
  GPU_LAUNCH_KERNEL d (fun b t out => AddNReluGradKernel d b t nthreads in0 in1 in2 out) out

/-- The body of `AddReluKernel(int nthreads, const half* in0, const half* in1, half* out)` as
run by one thread: `half sum = __hadd(in0[index], in1[index]);`
`out[index] = __hgt(sum, hZero) ? sum : hZero;` with `hZero` the half `0.0`. The element type is
a totally ordered type with addition and zero: `__hadd` is its addition, `__hgt` its strict
order. -/
def AddReluKernel_half {α : Type} [LinearOrder α] [Add α] [Zero α] (d : LaunchDims)
    (blockIdx threadIdx : Nat) (nthreads : Int) (in0 in1 : Nat → α) (out : Nat → α) : Nat → α :=
  let hZero : α := 0
  GPU_1D_KERNEL_LOOP d blockIdx threadIdx nthreads
    (fun index out =>
      let sum := in0 index + in1 index
      Function.update out index (if sum > hZero then sum else hZero)) out

/-- The body of `AddNReluGradKernel(int nthreads, const half* in0, const half* in1,
const half* in2, half* out)` as run by one thread:
`out[index] = __hgt(in2[index], hZero) ? __hadd(in0[index], in1[index]) : hZero;`. -/
def AddNReluGradKernel_half {α : Type} [LinearOrder α] [Add α] [Zero α] (d : LaunchDims)
    (blockIdx threadIdx : Nat) (nthreads : Int) (in0 in1 in2 : Nat → α) (out : Nat → α) :
    Nat → α :=
  let hZero : α := 0
  GPU_1D_KERNEL_LOOP d blockIdx threadIdx nthreads
    (fun index out =>
      Function.update out index (if in2 index > hZero then in0 index + in1 index else hZero)) out

/-- The launch made by the half overload of `FusionAddRelu`: the half `AddReluKernel` on the
whole grid. -/
def launchAddRelu_half {α : Type} [LinearOrder α] [Add α] [Zero α] (d : LaunchDims)
    (nthreads : Int) (in0 in1 : Nat → α) (out : Nat → α) : Nat → α :=
  GPU_LAUNCH_KERNEL d (fun b t out => AddReluKernel_half d b t nthreads in0 in1 out) out

/-- The launch made by the half overload of `FusionAddNReluGrad`: the half `AddNReluGradKernel`
on the whole grid. -/
def launchAddNReluGrad_half {α : Type} [LinearOrder α] [Add α] [Zero α] (d : LaunchDims)
    (nthreads : Int) (in0 in1 in2 : Nat → α) (out : Nat → α) : Nat → α :=
  GPU_LAUNCH_KERNEL d (fun b t out => AddNReluGradKernel_half d b t nthreads in0 in1 in2 out) out

end rocm_kernels


/-! ### Part 1b. The rocsolver call shims (`rocsolver_wrapper.h`) -/

namespace wrap

/-- The enum `rocblas_status`, by its numeric value. -/
abbrev rocblas_status := Nat

/-- A `void*`: a library handle or the address of a function. -/
abbrev Address := Nat

/-- The names listed in `FOREACH_ROCSOLVER_API`; each one gets a wrapper of the same name. -/
inductive RocsolverApi where
  | rocsolver_spotrf
  | rocsolver_dpotrf
  | rocsolver_cpotrf
  | rocsolver_zpotrf
deriving DecidableEq, Repr

/-- `DynLoadShim__##__name::kName = #__name`: the stringified name of the wrapped function. -/
def kName : RocsolverApi → String
  | .rocsolver_spotrf => "rocsolver_spotrf"
  | .rocsolver_dpotrf => "rocsolver_dpotrf"
  | .rocsolver_cpotrf => "rocsolver_cpotrf"
  | .rocsolver_zpotrf => "rocsolver_zpotrf"

/-- What lies outside the header: the vendor library and the loader. `Args` is the argument list
of the wrapped function (the header is generic in it: `template <typename... Args>`). -/
structure Env (Args : Type) where
  /-- The vendor function `::name`, as linked in the direct-call build. -/
  vendor : String → Args → rocblas_status
  /-- `CachedDsoLoader::GetRocsolverDsoHandle()`: a handle or an error status. -/
  GetRocsolverDsoHandle : Except Status Address
  /-- `Env::Default()->GetSymbolFromLibrary(handle, name, &f)`: the status it returns and the
  address it writes to `f`. -/
  GetSymbolFromLibrary : Address → String → Status × Address
  /-- Calling the function that lives at an address. -/
  code : Address → Args → rocblas_status

/-- `WrapperShim__##__name::operator()`, the direct-call build (`PLATFORM_GOOGLE`):
`rocblas_status retval = ::__name(args...); return retval;`. -/
def WrapperShim {Args : Type} (env : Env Args) (api : RocsolverApi) (args : Args) :
    rocblas_status :=
  let retval := env.vendor (kName api) args
  retval

/-- What a shim does that is visible outside it. -/
inductive Event (Args : Type) where
  /-- A call of `GetSymbolFromLibrary(handle, name, &f)`. -/
  | lookup (handle : Address) (name : String)
  /-- A call through the function pointer `f`. -/
  | call (f : Address) (args : Args)

/-- How the process dies inside a shim. -/
inductive Fatal where
  /-- `s.ValueOrDie()` on an error in `GetDsoHandle`. -/
  | ValueOrDie
  /-- `CHECK(s.ok())` failed in `LoadOrDie`. -/
  | CHECK
deriving DecidableEq, Repr

/-- The state of one `DynLoadShim__##__name`: the function-local `static FuncPtrT f` of `DynLoad`
(`none` until its initialiser has run) and the events so far. -/
structure DynLoadShim (Args : Type) where
  f : Option Address
  trace : List (Event Args)

namespace DynLoadShim

/-- The shim at program start: the static is not initialised and nothing has happened. -/
def init {Args : Type} : DynLoadShim Args := ⟨none, []⟩

/-- Append an event to the trace. -/
def log {Args : Type} (s : DynLoadShim Args) (e : Event Args) : DynLoadShim Args :=
  { s with trace := s.trace ++ [e] }

/-- `GetDsoHandle()`: `auto s = GetRocsolverDsoHandle(); return s.ValueOrDie();`. -/
def GetDsoHandle {Args : Type} (env : Env Args) : Except Fatal Address :=
  match env.GetRocsolverDsoHandle with
  | .ok handle => .ok handle
  | .error _ => .error .ValueOrDie

/-- `LoadOrDie()`: look `kName` up in the library, `CHECK` the status, return the address. -/
def LoadOrDie {Args : Type} (env : Env Args) (api : RocsolverApi) (s : DynLoadShim Args) :
    DynLoadShim Args × Except Fatal Address :=
  match GetDsoHandle env with
  | .error e => (s, .error e)
  | .ok handle =>
    let r := env.GetSymbolFromLibrary handle (kName api)
    let s := s.log (.lookup handle (kName api))
    if r.1.ok then (s, .ok r.2) else (s, .error .CHECK)

/-- `DynLoad()`: `static FuncPtrT f = LoadOrDie(); return f;`. The initialiser runs the first
time control passes through the declaration. -/
def DynLoad {Args : Type} (env : Env Args) (api : RocsolverApi) (s : DynLoadShim Args) :
    DynLoadShim Args × Except Fatal Address :=
  match s.f with
  | some f => (s, .ok f)
  | none =>
    match LoadOrDie env api s with
    | (s, .ok f) => ({ s with f := some f }, .ok f)
    | (s, .error e) => (s, .error e)

/-- `operator()(Args... args)`: `return DynLoad()(args...);`. -/
def call {Args : Type} (env : Env Args) (api : RocsolverApi) (args : Args)
    (s : DynLoadShim Args) : DynLoadShim Args × Except Fatal rocblas_status :=
  match DynLoad env api s with
  | (s, .ok f) => (s.log (.call f args), .ok (env.code f args))
  | (s, .error e) => (s, .error e)

/-- A sequence of calls of one wrapper; the process ends at the first fatal error. -/
def calls {Args : Type} (env : Env Args) (api : RocsolverApi) :
    List Args → DynLoadShim Args → DynLoadShim Args × Except Fatal (List rocblas_status)
  | [], s => (s, .ok [])
  | args :: rest, s =>
    match call env api args s with
    | (s, .error e) => (s, .error e)
    | (s, .ok r) =>
      match calls env api rest s with
      | (s, .error e) => (s, .error e)
      | (s, .ok rs) => (s, .ok (r :: rs))

/-- The symbol lookups of a trace, in order. -/
def lookups {Args : Type} : List (Event Args) → List (Address × String)
  | [] => []
  | .lookup handle name :: es => (handle, name) :: lookups es
  | .call _ _ :: es => lookups es

/-- The calls through a function pointer of a trace, in order. -/
def pointerCalls {Args : Type} : List (Event Args) → List (Address × Args)
  | [] => []
  | .lookup _ _ :: es => pointerCalls es
  | .call f args :: es => (f, args) :: pointerCalls es

end DynLoadShim

/-- An environment for examples: the library exports every name at address `100`, where a
function lives that returns its argument plus one; the loader finds every name but
`"rocsolver_zpotrf"`. -/
def exampleEnv : Env Nat where
  vendor := fun _ n => n + 1
  GetRocsolverDsoHandle := .ok 7
  GetSymbolFromLibrary := fun _ name =>
    if name = "rocsolver_zpotrf" then (⟨5, "undefined symbol"⟩, 0) else (Status.OK, 100)
  code := fun _ n => n + 1

end wrap

/-! ### Part 1c. The TPU executor facade (`tpu_executor.cc`) -/

/-- The canonical error code `UNIMPLEMENTED`. -/
def error.UNIMPLEMENTED : Nat := 12

/-- `port::UnimplementedError(message)`. -/
def UnimplementedError (message : String) : Status := ⟨error.UNIMPLEMENTED, message⟩

namespace tpu

/-- An address: of an implementation object, of a vendor handle, of a host buffer. -/
abbrev Ptr := Nat

/-- The classes `Stream`, `Timer` and `Event` of the device abstraction, as far as the executor
looks at them: `implementation()` gives the address of the implementation object. -/
structure Stream where
  implementation : Ptr
deriving DecidableEq, Repr

structure Timer where
  implementation : Ptr
deriving DecidableEq, Repr

structure Event where
  implementation : Ptr
deriving DecidableEq, Repr

/-- The implementation objects `TpuStream`, `TpuTimer`, `TpuEvent`: each wraps the vendor handle
its constructor is given. -/
structure TpuStream where
  stream_ : Ptr
deriving DecidableEq, Repr

structure TpuTimer where
  timer_ : Ptr
deriving DecidableEq, Repr

structure TpuEvent where
  event_ : Ptr
deriving DecidableEq, Repr

/-- The struct `SE_DeviceMemoryBase` of the C API. -/
structure SE_DeviceMemoryBase where
  opaque_ : Ptr
  size : Nat
  payload : Nat
deriving DecidableEq, Repr

/-- The class `DeviceMemoryBase`. -/
structure DeviceMemoryBase where
  opaque_ : Ptr
  size : Nat
  payload : Nat
deriving DecidableEq, Repr

/-- Modelled from the spec: `TpuConversions::DeviceMemoryBaseToSE_DeviceMemoryBase` of
`c_api_conversions.h`, which is not among the sources; it marshals the argument field by
field. -/
def DeviceMemoryBaseToSE_DeviceMemoryBase (m : DeviceMemoryBase) : SE_DeviceMemoryBase :=
  ⟨m.opaque_, m.size, m.payload⟩

/-- Modelled from the spec: `TpuConversions::SE_DeviceMemoryBaseToDeviceMemoryBase` of
`c_api_conversions.h`, which is not among the sources; it marshals the argument field by
field. -/
def SE_DeviceMemoryBaseToDeviceMemoryBase (m : SE_DeviceMemoryBase) : DeviceMemoryBase :=
  ⟨m.opaque_, m.size, m.payload⟩

/-- What a vendor call leaves in the `SE_Status` it is given: a code (`0` is OK) and a
message. -/
structure SE_Status where
  code : Nat
  message : String
deriving DecidableEq, Repr

/-- The struct `SE_AllocatorStats` of the C API. -/
structure SE_AllocatorStats where
  num_allocs : Int
  bytes_in_use : Int
  peak_bytes_in_use : Int
  largest_alloc_size : Int
  has_bytes_limit : Bool
  bytes_limit : Int
  bytes_reserved : Int
  peak_bytes_reserved : Int
  has_bytes_reservable_limit : Bool
  bytes_reservable_limit : Int
  largest_free_block_bytes : Int
deriving DecidableEq, Repr

/-- The struct `AllocatorStats`; the two limits are `absl::optional`. -/
structure AllocatorStats where
  num_allocs : Int
  bytes_in_use : Int
  peak_bytes_in_use : Int
  largest_alloc_size : Int
  bytes_limit : Option Int
  bytes_reserved : Int
  peak_bytes_reserved : Int
  bytes_reservable_limit : Option Int
  largest_free_block_bytes : Int
deriving DecidableEq, Repr

/-- Modelled from the spec: the default constructor of `AllocatorStats`, whose declaration is
not among the sources: a freshly constructed value has zero counters and empty optional
limits. -/
def AllocatorStats.fresh : AllocatorStats :=
  ⟨0, 0, 0, 0, none, 0, 0, none, 0⟩

/-- The fields of the struct `SE_DeviceDescription` that the executor reads. `device_vendor` is
a `char*` that the executor tests against `nullptr` (`none`); `name` and `platform_version` are
C strings it reads without a test. `clock_rate_ghz` is a `float`, which is only copied: it is
kept as its bit pattern. -/
structure SE_DeviceDescription where
  device_vendor : Option String
  name : String
  clock_rate_ghz : Nat
  core_count : Int
  ecc_enabled : Bool
  device_memory_size : Int
  platform_version : String
deriving DecidableEq, Repr

/-- The fields of `DeviceDescription` that `CreateDeviceDescription` sets through the
builder. -/
structure DeviceDescription where
  device_vendor : String
  name : String
  clock_rate_ghz : Nat
  core_count : Int
  ecc_enabled : Bool
  device_memory_size : Int
  platform_version : String
deriving DecidableEq, Repr

/-- The functions of the external C API that `tpu_executor.cc` calls. -/
inductive CFunction where
  | TpuExecutor_Free
  | TpuExecutor_NewDeviceOptions
  | TpuExecutor_Init
  | TpuExecutor_FreeDeviceOptions
  | TpuExecutor_PlatformDeviceCount
  | TpuExecutor_SyncAndForgetFailedStreams
  | TpuExecutor_SynchronizeAllActivity
  | TpuExecutor_BlockHostUntilDone
  | TpuExecutor_BlockUntilDoneOrFailed
  | TpuExecutor_GetStatus
  | TpuExecutor_AllocateStream
  | TpuExecutor_DeallocateStream
  | TpuExecutor_CreateStreamDependency
  | TpuExecutor_StartTimer
  | TpuExecutor_StopTimer
  | TpuExecutor_PollForEventStatus
  | TpuExecutor_RecordEvent
  | TpuExecutor_WaitForEvent
  | TpuTimer_New
  | TpuStream_New
  | TpuEvent_New
  | TpuExecutor_Allocate
  | TpuExecutor_Deallocate
  | TpuExecutor_DeviceMemoryUsage
  | TpuExecutor_GetAllocatorStats
  | TpuExecutor_WaitForInfeedReady
  | TpuExecutor_WaitForOutfeedReady
  | TpuExecutor_DequeueOutfeed
  | TpuExecutor_EnqueueInfeed
  | TpuExecutor_MemcpyToHost
  | TpuExecutor_MemcpyFromHost
  | TpuExecutor_SynchronousMemcpyFromHost
  | TpuExecutor_SynchronousMemcpyToHost
  | TpuStatus_Create
  | TpuExecutor_HostCallback
  | TpuDeviceDescription_New
  | TpuDeviceDescription_Free
  | TpuExecutor_CreateDeviceDescription
deriving DecidableEq, Repr

/-- An argument passed to the C API (the out-parameters are not listed: what a call writes to
them is its reply). -/
inductive Arg where
  | ptr (p : Ptr)
  | int (n : Int)
  | mem (m : SE_DeviceMemoryBase)
  | str (s : String)
  /-- The function pointer `&HostCallbackTrampoline`. -/
  | trampoline
deriving DecidableEq, Repr

/-- A call of the C API: the function and its arguments in order. -/
structure Call where
  fn : CFunction
  args : List Arg
deriving DecidableEq, Repr

/-- What a call of the C API gives back: its return value and what it wrote through its
out-parameters. -/
inductive Reply where
  | unit
  | bool (b : Bool)
  | int (n : Int)
  | handle (p : Ptr)
  | status (s : SE_Status)
  | memory (m : SE_DeviceMemoryBase)
  | memoryUsage (ok : Bool) (free total : Int)
  | allocatorStats (ok : Bool) (c_stats : SE_AllocatorStats)
  | description (s : SE_Status) (d : SE_DeviceDescription)
deriving DecidableEq, Repr

/-- What the code of `tpu_executor.cc` does that is visible outside it. -/
inductive Action where
  /-- A call of the C API and its reply. -/
  | vendor (c : Call) (r : Reply)
  /-- The `std::function` stored in the host-callback context at `ctx` ran and returned
  `result`. -/
  | callback (ctx : Ptr) (result : Status)
  /-- `delete` of the host-callback context at `ctx`. -/
  | delete (ctx : Ptr)
  /-- The `StatusCallback done` was invoked with `s`. -/
  | done (s : Status)
deriving DecidableEq, Repr

/-- The external device runtime. Each field gives, for the actions so far and a call, one kind
of reply; the runtime is free to depend on everything that happened before. -/
structure Vendor where
  bool : List Action → Call → Bool
  int : List Action → Call → Int
  handle : List Action → Call → Ptr
  status : List Action → Call → SE_Status
  memory : List Action → Call → SE_DeviceMemoryBase
  int2 : List Action → Call → Int × Int
  allocatorStats : List Action → Call → SE_AllocatorStats
  description : List Action → Call → SE_DeviceDescription

/-- A lookup table from implementation objects to vendor handles (`stream_map()`,
`timer_map_`, `event_map()`). -/
abbrev Table := Ptr → Option Ptr

/-- `map.at(key)`: `none` when the key is absent (the lookup then does not return). -/
def Table.at_ (t : Table) (key : Ptr) : Option Ptr := t key

/-- `map[key] = value`. -/
def Table.set (t : Table) (key value : Ptr) : Table := Function.update t key (some value)

/-- `map.erase(key)`. -/
def Table.erase (t : Table) (key : Ptr) : Table := Function.update t key none

/-- `struct HostCallbackContext { std::function<Status()> callback; }`. -/
structure HostCallbackContext where
  callback : Unit → Status

/-- The state the executor works on: its member `executor_`, the three lookup tables, the
live `HostCallbackContext` objects on the heap, and the actions so far. -/
structure World where
  executor_ : Ptr
  stream_map : Table
  timer_map_ : Table
  event_map : Table
  contexts : Ptr → Option HostCallbackContext
  trace : List Action

/-- How a method can fail to return. -/
inductive Fault where
  /-- `map.at(key)` with an absent key. -/
  | out_of_range
  /-- `LOG(FATAL)`. -/
  | LOG_FATAL
  /-- A failed `CHECK`. -/
  | CHECK
  /-- A context pointer that is not a live `HostCallbackContext`. -/
  | dangling
deriving DecidableEq, Repr

/-- The outcome of a method: the state it leaves and its return value or the fault. -/
abbrev Result (α : Type) := World × Except Fault α

/-- Record an action. -/
def World.log (w : World) (a : Action) : World := { w with trace := w.trace ++ [a] }

/-- A call of the C API whose reply is nothing. -/
def callUnit (_v : Vendor) (c : Call) (w : World) : World := w.log (.vendor c .unit)

/-- A call of the C API that returns a `bool`. -/
def callBool (v : Vendor) (c : Call) (w : World) : Bool × World :=
  (v.bool w.trace c, w.log (.vendor c (.bool (v.bool w.trace c))))

/-- A call of the C API that returns an integer. -/
def callInt (v : Vendor) (c : Call) (w : World) : Int × World :=
  (v.int w.trace c, w.log (.vendor c (.int (v.int w.trace c))))

/-- A call of the C API that returns a handle. -/
def callHandle (v : Vendor) (c : Call) (w : World) : Ptr × World :=
  (v.handle w.trace c, w.log (.vendor c (.handle (v.handle w.trace c))))

/-- A call of the C API that writes to the `SE_Status` it is given. -/
def callStatus (v : Vendor) (c : Call) (w : World) : SE_Status × World :=
  (v.status w.trace c, w.log (.vendor c (.status (v.status w.trace c))))

/-- Modelled from the spec: `StatusHelper::status()` of `status_helper.h`, which is not among
the sources: it wraps the status the vendor call produced, `OK` when the code is OK and
otherwise a `Status` with the same code and message. -/
def StatusHelper.status (c_status : SE_Status) : Status :=
  if c_status.code = 0 then Status.OK else ⟨c_status.code, c_status.message⟩

namespace TpuExecutor

/-- `stream_map().at(stream->implementation())`, then the rest of the method. -/
def atStream {α : Type} (w : World) (stream : Stream) (k : Ptr → Result α) : Result α :=
  match w.stream_map.at_ stream.implementation with
  | none => (w, .error .out_of_range)
  | some h => k h

/-- `timer_map_.at(timer->implementation())`, then the rest of the method. -/
def atTimer {α : Type} (w : World) (timer : Timer) (k : Ptr → Result α) : Result α :=
  match w.timer_map_.at_ timer.implementation with
  | none => (w, .error .out_of_range)
  | some h => k h

/-- `event_map().at(event->implementation())`, then the rest of the method. -/
def atEvent {α : Type} (w : World) (event : Event) (k : Ptr → Result α) : Result α :=
  match w.event_map.at_ event.implementation with
  | none => (w, .error .out_of_range)
  | some h => k h

/-- `TpuExecutor::~TpuExecutor()`. -/
def destructor (v : Vendor) (w : World) : Result Unit :=
  (callUnit v ⟨.TpuExecutor_Free, [.ptr w.executor_]⟩ w, .ok ())

/-- `TpuExecutor::Init(device_ordinal, device_options)`; `flags` is `device_options.flags()`. -/
def Init (v : Vendor) (device_ordinal : Int) (flags : Nat) (w : World) : Result Status :=
  let (options, w) := callHandle v ⟨.TpuExecutor_NewDeviceOptions, [.int flags]⟩ w
  let (status, w) :=
    callStatus v ⟨.TpuExecutor_Init, [.ptr w.executor_, .int device_ordinal, .ptr options]⟩ w
  let w := callUnit v ⟨.TpuExecutor_FreeDeviceOptions, [.ptr options]⟩ w
  (w, .ok (StatusHelper.status status))

/-- `TpuExecutor::PlatformDeviceCount()`. -/
def PlatformDeviceCount (v : Vendor) (w : World) : Result Int :=
  let (n, w) := callInt v ⟨.TpuExecutor_PlatformDeviceCount, [.ptr w.executor_]⟩ w
  (w, .ok n)

/-- `TpuExecutor::SyncAndForgetFailedStreams()`. -/
def SyncAndForgetFailedStreams (v : Vendor) (w : World) : Result Unit :=
  (callUnit v ⟨.TpuExecutor_SyncAndForgetFailedStreams, [.ptr w.executor_]⟩ w, .ok ())

/-- `TpuExecutor::SynchronizeAllActivity()`. -/
def SynchronizeAllActivity (v : Vendor) (w : World) : Result Bool :=
  let (b, w) := callBool v ⟨.TpuExecutor_SynchronizeAllActivity, [.ptr w.executor_]⟩ w
  (w, .ok b)

/-- `TpuExecutor::BlockHostUntilDone(stream)`. -/
def BlockHostUntilDone (v : Vendor) (stream : Stream) (w : World) : Result Status :=
  atStream w stream fun h =>
    let (status, w) := callStatus v ⟨.TpuExecutor_BlockHostUntilDone, [.ptr w.executor_, .ptr h]⟩ w
    (w, .ok (StatusHelper.status status))

/-- `TpuExecutor::BlockUntilDoneOrFailed()`. -/
def BlockUntilDoneOrFailed (v : Vendor) (w : World) : Result Status :=
  let (status, w) := callStatus v ⟨.TpuExecutor_BlockUntilDoneOrFailed, [.ptr w.executor_]⟩ w
  (w, .ok (StatusHelper.status status))

/-- `TpuExecutor::GetStatus(stream)`. -/
def GetStatus (v : Vendor) (stream : Stream) (w : World) : Result Status :=
  atStream w stream fun h =>
    let (status, w) := callStatus v ⟨.TpuExecutor_GetStatus, [.ptr w.executor_, .ptr h]⟩ w
    (w, .ok (StatusHelper.status status))

/-- `TpuExecutor::AllocateStream(stream)`. -/
def AllocateStream (v : Vendor) (stream : Stream) (w : World) : Result Bool :=
  atStream w stream fun h =>
    let (b, w) := callBool v ⟨.TpuExecutor_AllocateStream, [.ptr w.executor_, .ptr h]⟩ w
    (w, .ok b)

/-- `TpuExecutor::DeallocateStream(stream)`: the vendor call on the looked-up handle, then
`stream_map().erase(stream->implementation())`. -/
def DeallocateStream (v : Vendor) (stream : Stream) (w : World) : Result Unit :=
  atStream w stream fun h =>
    let w := callUnit v ⟨.TpuExecutor_DeallocateStream, [.ptr w.executor_, .ptr h]⟩ w
    ({ w with stream_map := w.stream_map.erase stream.implementation }, .ok ())

/-- `TpuExecutor::CreateStreamDependency(dependent, other)`. -/
def CreateStreamDependency (v : Vendor) (dependent other : Stream) (w : World) : Result Bool :=
  atStream w dependent fun hd =>
    atStream w other fun ho =>
      let (b, w) :=
        callBool v ⟨.TpuExecutor_CreateStreamDependency, [.ptr w.executor_, .ptr hd, .ptr ho]⟩ w
      (w, .ok b)

/-- `TpuExecutor::AllocateEvent(event)`: `return Status::OK();`. -/
def AllocateEvent (_event : Event) (w : World) : Result Status := (w, .ok Status.OK)

/-- `TpuExecutor::DeallocateEvent(event)`: `return Status::OK();`. -/
def DeallocateEvent (_event : Event) (w : World) : Result Status := (w, .ok Status.OK)

/-- `TpuExecutor::AllocateTimer(timer)`: `return true;`. -/
def AllocateTimer (_timer : Timer) (w : World) : Result Bool := (w, .ok true)

/-- `TpuExecutor::DeallocateTimer(timer)`: empty body. -/
def DeallocateTimer (_timer : Timer) (w : World) : Result Unit := (w, .ok ())

/-- `TpuExecutor::StartTimer(stream, timer)`. -/
def StartTimer (v : Vendor) (stream : Stream) (timer : Timer) (w : World) : Result Bool :=
  atStream w stream fun hs =>
    atTimer w timer fun ht =>
      let (b, w) := callBool v ⟨.TpuExecutor_StartTimer, [.ptr w.executor_, .ptr hs, .ptr ht]⟩ w
      (w, .ok b)

/-- `TpuExecutor::StopTimer(stream, timer)`. -/
def StopTimer (v : Vendor) (stream : Stream) (timer : Timer) (w : World) : Result Bool :=
  atStream w stream fun hs =>
    atTimer w timer fun ht =>
      let (b, w) := callBool v ⟨.TpuExecutor_StopTimer, [.ptr w.executor_, .ptr hs, .ptr ht]⟩ w
      (w, .ok b)

/-- `TpuExecutor::PollForEventStatus(event)`; the result is the enum value the vendor
returned. -/
def PollForEventStatus (v : Vendor) (event : Event) (w : World) : Result Int :=
  atEvent w event fun he =>
    let (n, w) := callInt v ⟨.TpuExecutor_PollForEventStatus, [.ptr w.executor_, .ptr he]⟩ w
    (w, .ok n)

/-- `TpuExecutor::RecordEvent(stream, event)`. -/
def RecordEvent (v : Vendor) (stream : Stream) (event : Event) (w : World) : Result Status :=
  atStream w stream fun hs =>
    atEvent w event fun he =>
      let (status, w) :=
        callStatus v ⟨.TpuExecutor_RecordEvent, [.ptr w.executor_, .ptr hs, .ptr he]⟩ w
      (w, .ok (StatusHelper.status status))

/-- `TpuExecutor::WaitForEvent(stream, event)`. -/
def WaitForEvent (v : Vendor) (stream : Stream) (event : Event) (w : World) : Result Status :=
  atStream w stream fun hs =>
    atEvent w event fun he =>
      let (status, w) :=
        callStatus v ⟨.TpuExecutor_WaitForEvent, [.ptr w.executor_, .ptr hs, .ptr he]⟩ w
      (w, .ok (StatusHelper.status status))

/-- `TpuExecutor::GetTimerImplementation()`. `ptr` is the address of the `TpuTimer` that
`absl::make_unique` allocates; the result is that object. -/
def GetTimerImplementation (v : Vendor) (ptr : Ptr) (w : World) : Result (Ptr × TpuTimer) :=
  let (tpu_timer, w) := callHandle v ⟨.TpuTimer_New, [.ptr w.executor_]⟩ w
  ({ w with timer_map_ := w.timer_map_.set ptr tpu_timer }, .ok (ptr, ⟨tpu_timer⟩))

/-- `TpuExecutor::GetStreamImplementation()`. `ptr` is the address of the `TpuStream` that
`absl::make_unique` allocates; the result is that object. -/
def GetStreamImplementation (v : Vendor) (ptr : Ptr) (w : World) : Result (Ptr × TpuStream) :=
  let (tpu_stream, w) := callHandle v ⟨.TpuStream_New, [.ptr w.executor_]⟩ w
  ({ w with stream_map := w.stream_map.set ptr tpu_stream }, .ok (ptr, ⟨tpu_stream⟩))

/-- `TpuExecutor::CreateEventImplementation()`. `ptr` is the address of the `TpuEvent` that
`absl::make_unique` allocates; the result is that object. -/
def CreateEventImplementation (v : Vendor) (ptr : Ptr) (w : World) : Result (Ptr × TpuEvent) :=
  let (tpu_event, w) := callHandle v ⟨.TpuEvent_New, [.ptr w.executor_]⟩ w
  ({ w with event_map := w.event_map.set ptr tpu_event }, .ok (ptr, ⟨tpu_event⟩))

/-- `TpuExecutor::Allocate(size, memory_space)`. -/
def Allocate (v : Vendor) (size : Nat) (memory_space : Int) (w : World) :
    Result DeviceMemoryBase :=
  let c : Call := ⟨.TpuExecutor_Allocate, [.ptr w.executor_, .int size, .int memory_space]⟩
  let se_base := v.memory w.trace c
  (w.log (.vendor c (.memory se_base)), .ok (SE_DeviceMemoryBaseToDeviceMemoryBase se_base))

/-- `TpuExecutor::Deallocate(const DeviceMemoryBase& memory)`. -/
def Deallocate (v : Vendor) (memory : DeviceMemoryBase) (w : World) : Result Unit :=
  let se_base := DeviceMemoryBaseToSE_DeviceMemoryBase memory
  (callUnit v ⟨.TpuExecutor_Deallocate, [.ptr w.executor_, .mem se_base]⟩ w, .ok ())

/-- `TpuExecutor::Deallocate(DeviceMemoryBase* memory)`. -/
def DeallocatePtr (v : Vendor) (memory : DeviceMemoryBase) (w : World) : Result Unit :=
  let se_base := DeviceMemoryBaseToSE_DeviceMemoryBase memory
  (callUnit v ⟨.TpuExecutor_Deallocate, [.ptr w.executor_, .mem se_base]⟩ w, .ok ())

/-- `TpuExecutor::DeviceMemoryUsage(free, total)`: `some (free, total)` when it returns `true`
and has written both, `none` when it returns `false`. -/
def DeviceMemoryUsage (v : Vendor) (w : World) : Result (Option (Int × Int)) :=
  let c : Call := ⟨.TpuExecutor_DeviceMemoryUsage, [.ptr w.executor_]⟩
  let ok := v.bool w.trace c
  let ft := v.int2 w.trace c
  let w := w.log (.vendor c (.memoryUsage ok ft.1 ft.2))
  if ok then (w, .ok (some (ft.1, ft.2))) else (w, .ok none)

/-- `TpuExecutor::GetAllocatorStats()`. -/
def GetAllocatorStats (v : Vendor) (w : World) : Result (Option AllocatorStats) :=
  let c : Call := ⟨.TpuExecutor_GetAllocatorStats, [.ptr w.executor_]⟩
  let ok := v.bool w.trace c
  let c_stats := v.allocatorStats w.trace c
  let w := w.log (.vendor c (.allocatorStats ok c_stats))
  if ok then
    let stats := AllocatorStats.fresh
    let stats := { stats with num_allocs := c_stats.num_allocs }
    let stats := { stats with bytes_in_use := c_stats.bytes_in_use }
    let stats := { stats with peak_bytes_in_use := c_stats.peak_bytes_in_use }
    let stats := { stats with largest_alloc_size := c_stats.largest_alloc_size }
    let stats :=
      if c_stats.has_bytes_limit then { stats with bytes_limit := some c_stats.bytes_limit }
      else stats
    let stats := { stats with bytes_reserved := c_stats.bytes_reserved }
    let stats := { stats with peak_bytes_reserved := c_stats.peak_bytes_reserved }
    let stats :=
      if c_stats.has_bytes_reservable_limit then
        { stats with bytes_reservable_limit := some c_stats.bytes_reservable_limit }
      else stats
    let stats := { stats with largest_free_block_bytes := c_stats.largest_free_block_bytes }
    (w, .ok (some stats))
  else (w, .ok none)

/-- `TpuExecutor::WaitForInfeedReady(infeed_queue_index)`. -/
def WaitForInfeedReady (v : Vendor) (infeed_queue_index : Int) (w : World) : Result Status :=
  let (status, w) :=
    callStatus v ⟨.TpuExecutor_WaitForInfeedReady, [.ptr w.executor_, .int infeed_queue_index]⟩ w
  (w, .ok (StatusHelper.status status))

/-- `TpuExecutor::WaitForOutfeedReady(outfeed_queue_index)`. -/
def WaitForOutfeedReady (v : Vendor) (outfeed_queue_index : Int) (w : World) : Result Status :=
  let (status, w) :=
    callStatus v ⟨.TpuExecutor_WaitForOutfeedReady, [.ptr w.executor_, .int outfeed_queue_index]⟩ w
  (w, .ok (StatusHelper.status status))

/-- `TpuExecutor::DequeueOutfeed(outfeed_queue_index, bytes, done)`; the span `bytes` is its
`data()` and `size()`. -/
def DequeueOutfeed (v : Vendor) (outfeed_queue_index : Int) (data : Ptr) (size : Nat)
    (w : World) : Result Unit :=
  let (status, w) := callStatus v ⟨.TpuExecutor_DequeueOutfeed,
    [.ptr w.executor_, .int outfeed_queue_index, .ptr data, .int size]⟩ w
  (w.log (.done (StatusHelper.status status)), .ok ())

/-- `TpuExecutor::EnqueueInfeed(infeed_queue_index, bytes)`. -/
def EnqueueInfeed (v : Vendor) (infeed_queue_index : Int) (data : Ptr) (size : Nat)
    (w : World) : Result Status :=
  let (status, w) := callStatus v ⟨.TpuExecutor_EnqueueInfeed,
    [.ptr w.executor_, .int infeed_queue_index, .ptr data, .int size]⟩ w
  (w, .ok (StatusHelper.status status))

/-- `TpuExecutor::Memcpy(stream, host_dst, device_src, size)`. -/
def MemcpyToHost (v : Vendor) (stream : Stream) (host_dst : Ptr) (device_src : DeviceMemoryBase)
    (size : Nat) (w : World) : Result Bool :=
  let se_base := DeviceMemoryBaseToSE_DeviceMemoryBase device_src
  atStream w stream fun h =>
    let (b, w) := callBool v ⟨.TpuExecutor_MemcpyToHost,
      [.ptr w.executor_, .ptr h, .ptr host_dst, .mem se_base, .int size]⟩ w
    (w, .ok b)

/-- `TpuExecutor::Memcpy(stream, device_dst, host_src, size)`. -/
def MemcpyFromHost (v : Vendor) (stream : Stream) (device_dst : DeviceMemoryBase)
    (host_src : Ptr) (size : Nat) (w : World) : Result Bool :=
  let se_base := DeviceMemoryBaseToSE_DeviceMemoryBase device_dst
  atStream w stream fun h =>
    let (b, w) := callBool v ⟨.TpuExecutor_MemcpyFromHost,
      [.ptr w.executor_, .ptr h, .mem se_base, .ptr host_src, .int size]⟩ w
    (w, .ok b)

/-- `TpuExecutor::SynchronousMemcpy(device_dst, host_src, size)`. -/
def SynchronousMemcpyFromHost (v : Vendor) (device_dst : DeviceMemoryBase) (host_src : Ptr)
    (size : Nat) (w : World) : Result Status :=
  let se_base := DeviceMemoryBaseToSE_DeviceMemoryBase device_dst
  let (status, w) := callStatus v ⟨.TpuExecutor_SynchronousMemcpyFromHost,
    [.ptr w.executor_, .mem se_base, .ptr host_src, .int size]⟩ w
  (w, .ok (StatusHelper.status status))

/-- `TpuExecutor::SynchronousMemcpy(host_dst, device_src, size)`. -/
def SynchronousMemcpyToHost (v : Vendor) (host_dst : Ptr) (device_src : DeviceMemoryBase)
    (size : Nat) (w : World) : Result Status :=
  let se_base := DeviceMemoryBaseToSE_DeviceMemoryBase device_src
  let (status, w) := callStatus v ⟨.TpuExecutor_SynchronousMemcpyToHost,
    [.ptr w.executor_, .ptr host_dst, .mem se_base, .int size]⟩ w
  (w, .ok (StatusHelper.status status))

/-- `TpuExecutor::SynchronousMemcpyDeviceToDevice(device_dst, device_src, size)`:
`return UnimplementedError("This operation not supported on TPU");`. -/
def SynchronousMemcpyDeviceToDevice (_device_dst _device_src : DeviceMemoryBase) (_size : Nat)
    (w : World) : Result Status :=
  (w, .ok (UnimplementedError "This operation not supported on TPU"))

/-- `TpuExecutor::MemcpyDeviceToDevice(stream, gpu_dst, host_src, size)`: `LOG(FATAL)`. -/
def MemcpyDeviceToDevice (_stream : Stream) (_gpu_dst _host_src : DeviceMemoryBase)
    (_size : Nat) (w : World) : Result Bool :=
  (w, .error .LOG_FATAL)

end TpuExecutor

/-- The NUL character, which ends a C string. -/
def NUL : Char := Char.ofNat 0

/-- `std::string::c_str()` as a `const char*` argument of the C API: the callee reads the
characters up to the first NUL, so a string with an embedded NUL arrives cut there. -/
def c_str (s : String) : String := ⟨s.data.takeWhile (fun c => c ≠ NUL)⟩

/-- `HostCallbackTrampoline(ctx)`: run the callback stored in the context, create the vendor
status from its code and the C string of its message, `delete` the context, return the vendor
status. -/
def HostCallbackTrampoline (v : Vendor) (ctx : Ptr) (w : World) : Result Ptr :=
  match w.contexts ctx with
  | none => (w, .error .dangling)
  | some host_ctx =>
    let status := host_ctx.callback ()
    let w := w.log (.callback ctx status)
    let (c_status, w) :=
      callHandle v ⟨.TpuStatus_Create, [.int status.code, .str (c_str status.error_message)]⟩ w
    let w := { w with contexts := Function.update w.contexts ctx none }
    let w := w.log (.delete ctx)
    (w, .ok c_status)

namespace TpuExecutor

/-- `TpuExecutor::HostCallback(stream, callback)`. `ctx` is the address of the context that
`new HostCallbackContext{callback}` allocates. -/
def HostCallback (v : Vendor) (stream : Stream) (callback : Unit → Status) (ctx : Ptr)
    (w : World) : Result Bool :=
  let w := { w with contexts := Function.update w.contexts ctx (some ⟨callback⟩) }
  atStream w stream fun h =>
    let (b, w) := callBool v ⟨.TpuExecutor_HostCallback,
      [.ptr w.executor_, .ptr h, .trampoline, .ptr ctx]⟩ w
    (w, .ok b)

/-- `TpuExecutor::CreateDeviceDescription()`. The cleanup object frees the vendor description
when the method returns; a failed `CHECK_NE` ends the process before that. -/
def CreateDeviceDescription (v : Vendor) (w : World) :
    Result (Except Status DeviceDescription) :=
  let (description, w) := callHandle v ⟨.TpuDeviceDescription_New, []⟩ w
  let c : Call := ⟨.TpuExecutor_CreateDeviceDescription, [.ptr w.executor_, .ptr description]⟩
  let status := v.status w.trace c
  let d := v.description w.trace c
  let w := w.log (.vendor c (.description status d))
  if (StatusHelper.status status).ok then
    match d.device_vendor with
    | none => (w, .error .CHECK)
    | some device_vendor =>
      let built : DeviceDescription :=
        { device_vendor := device_vendor
          name := d.name
          clock_rate_ghz := d.clock_rate_ghz
          core_count := d.core_count
          ecc_enabled := d.ecc_enabled
          device_memory_size := d.device_memory_size
          platform_version := d.platform_version }
      (callUnit v ⟨.TpuDeviceDescription_Free, [.ptr description]⟩ w, .ok (.ok built))
  else
    (callUnit v ⟨.TpuDeviceDescription_Free, [.ptr description]⟩ w,
      .ok (.error (StatusHelper.status status)))

end TpuExecutor

/-- The methods of the facade, each with its arguments (and, where the method allocates, the
address of the new object). -/
inductive Method where
  | destructor
  | Init (device_ordinal : Int) (flags : Nat)
  | PlatformDeviceCount
  | SyncAndForgetFailedStreams
  | SynchronizeAllActivity
  | BlockHostUntilDone (stream : Stream)
  | BlockUntilDoneOrFailed
  | GetStatus (stream : Stream)
  | AllocateStream (stream : Stream)
  | DeallocateStream (stream : Stream)
  | CreateStreamDependency (dependent other : Stream)
  | AllocateEvent (event : Event)
  | DeallocateEvent (event : Event)
  | AllocateTimer (timer : Timer)
  | DeallocateTimer (timer : Timer)
  | StartTimer (stream : Stream) (timer : Timer)
  | StopTimer (stream : Stream) (timer : Timer)
  | PollForEventStatus (event : Event)
  | RecordEvent (stream : Stream) (event : Event)
  | WaitForEvent (stream : Stream) (event : Event)
  | GetTimerImplementation (ptr : Ptr)
  | GetStreamImplementation (ptr : Ptr)
  | CreateEventImplementation (ptr : Ptr)
  | Allocate (size : Nat) (memory_space : Int)
  | Deallocate (memory : DeviceMemoryBase)
  | DeallocatePtr (memory : DeviceMemoryBase)
  | DeviceMemoryUsage
  | GetAllocatorStats
  | WaitForInfeedReady (infeed_queue_index : Int)
  | WaitForOutfeedReady (outfeed_queue_index : Int)
  | DequeueOutfeed (outfeed_queue_index : Int) (data : Ptr) (size : Nat)
  | EnqueueInfeed (infeed_queue_index : Int) (data : Ptr) (size : Nat)
  | MemcpyToHost (stream : Stream) (host_dst : Ptr) (device_src : DeviceMemoryBase) (size : Nat)
  | MemcpyFromHost (stream : Stream) (device_dst : DeviceMemoryBase) (host_src : Ptr) (size : Nat)
  | SynchronousMemcpyFromHost (device_dst : DeviceMemoryBase) (host_src : Ptr) (size : Nat)
  | SynchronousMemcpyToHost (host_dst : Ptr) (device_src : DeviceMemoryBase) (size : Nat)
  | SynchronousMemcpyDeviceToDevice (device_dst device_src : DeviceMemoryBase) (size : Nat)
  | MemcpyDeviceToDevice (stream : Stream) (gpu_dst host_src : DeviceMemoryBase) (size : Nat)
  | HostCallback (stream : Stream) (callback : Unit → Status) (ctx : Ptr)
  | CreateDeviceDescription

/-- The return values of the methods. -/
inductive Ret where
  | unit
  | status (s : Status)
  | bool (b : Bool)
  | int (n : Int)
  | timer (ptr : Ptr) (impl : TpuTimer)
  | stream (ptr : Ptr) (impl : TpuStream)
  | event (ptr : Ptr) (impl : TpuEvent)
  | memory (m : DeviceMemoryBase)
  | memoryUsage (r : Option (Int × Int))
  | allocatorStats (r : Option AllocatorStats)
  | description (d : DeviceDescription)
  | error (s : Status)

/-- The outcome of a method with its return value injected into `Ret`. -/
def returning {α : Type} (f : α → Ret) (r : Result α) : Result Ret :=
  (r.1, match r.2 with
    | .ok a => .ok (f a)
    | .error e => .error e)

/-- Run a method of the facade. -/
def run (v : Vendor) : Method → World → Result Ret
  | .destructor, w => returning (fun _ => .unit) (TpuExecutor.destructor v w)
  | .Init device_ordinal flags, w => returning .status (TpuExecutor.Init v device_ordinal flags w)
  | .PlatformDeviceCount, w => returning .int (TpuExecutor.PlatformDeviceCount v w)
  | .SyncAndForgetFailedStreams, w =>
    returning (fun _ => .unit) (TpuExecutor.SyncAndForgetFailedStreams v w)
  | .SynchronizeAllActivity, w => returning .bool (TpuExecutor.SynchronizeAllActivity v w)
  | .BlockHostUntilDone stream, w => returning .status (TpuExecutor.BlockHostUntilDone v stream w)
  | .BlockUntilDoneOrFailed, w => returning .status (TpuExecutor.BlockUntilDoneOrFailed v w)
  | .GetStatus stream, w => returning .status (TpuExecutor.GetStatus v stream w)
  | .AllocateStream stream, w => returning .bool (TpuExecutor.AllocateStream v stream w)
  | .DeallocateStream stream, w =>
    returning (fun _ => .unit) (TpuExecutor.DeallocateStream v stream w)
  | .CreateStreamDependency dependent other, w =>
    returning .bool (TpuExecutor.CreateStreamDependency v dependent other w)
  | .AllocateEvent event, w => returning .status (TpuExecutor.AllocateEvent event w)
  | .DeallocateEvent event, w => returning .status (TpuExecutor.DeallocateEvent event w)
  | .AllocateTimer timer, w => returning .bool (TpuExecutor.AllocateTimer timer w)
  | .DeallocateTimer timer, w => returning (fun _ => .unit) (TpuExecutor.DeallocateTimer timer w)
  | .StartTimer stream timer, w => returning .bool (TpuExecutor.StartTimer v stream timer w)
  | .StopTimer stream timer, w => returning .bool (TpuExecutor.StopTimer v stream timer w)
  | .PollForEventStatus event, w => returning .int (TpuExecutor.PollForEventStatus v event w)
  | .RecordEvent stream event, w => returning .status (TpuExecutor.RecordEvent v stream event w)
  | .WaitForEvent stream event, w => returning .status (TpuExecutor.WaitForEvent v stream event w)
  | .GetTimerImplementation ptr, w =>
    returning (fun r => .timer r.1 r.2) (TpuExecutor.GetTimerImplementation v ptr w)
  | .GetStreamImplementation ptr, w =>
    returning (fun r => .stream r.1 r.2) (TpuExecutor.GetStreamImplementation v ptr w)
  | .CreateEventImplementation ptr, w =>
    returning (fun r => .event r.1 r.2) (TpuExecutor.CreateEventImplementation v ptr w)
  | .Allocate size memory_space, w => returning .memory (TpuExecutor.Allocate v size memory_space w)
  | .Deallocate memory, w => returning (fun _ => .unit) (TpuExecutor.Deallocate v memory w)
  | .DeallocatePtr memory, w => returning (fun _ => .unit) (TpuExecutor.DeallocatePtr v memory w)
  | .DeviceMemoryUsage, w => returning .memoryUsage (TpuExecutor.DeviceMemoryUsage v w)
  | .GetAllocatorStats, w => returning .allocatorStats (TpuExecutor.GetAllocatorStats v w)
  | .WaitForInfeedReady i, w => returning .status (TpuExecutor.WaitForInfeedReady v i w)
  | .WaitForOutfeedReady i, w => returning .status (TpuExecutor.WaitForOutfeedReady v i w)
  | .DequeueOutfeed i data size, w =>
    returning (fun _ => .unit) (TpuExecutor.DequeueOutfeed v i data size w)
  | .EnqueueInfeed i data size, w => returning .status (TpuExecutor.EnqueueInfeed v i data size w)
  | .MemcpyToHost stream host_dst device_src size, w =>
    returning .bool (TpuExecutor.MemcpyToHost v stream host_dst device_src size w)
  | .MemcpyFromHost stream device_dst host_src size, w =>
    returning .bool (TpuExecutor.MemcpyFromHost v stream device_dst host_src size w)
  | .SynchronousMemcpyFromHost device_dst host_src size, w =>
    returning .status (TpuExecutor.SynchronousMemcpyFromHost v device_dst host_src size w)
  | .SynchronousMemcpyToHost host_dst device_src size, w =>
    returning .status (TpuExecutor.SynchronousMemcpyToHost v host_dst device_src size w)
  | .SynchronousMemcpyDeviceToDevice device_dst device_src size, w =>
    returning .status (TpuExecutor.SynchronousMemcpyDeviceToDevice device_dst device_src size w)
  | .MemcpyDeviceToDevice stream gpu_dst host_src size, w =>
    returning .bool (TpuExecutor.MemcpyDeviceToDevice stream gpu_dst host_src size w)
  | .HostCallback stream callback ctx, w =>
    returning .bool (TpuExecutor.HostCallback v stream callback ctx w)
  | .CreateDeviceDescription, w =>
    returning (fun r => match r with
      | .ok d => .description d
      | .error s => .error s) (TpuExecutor.CreateDeviceDescription v w)

/-- The actions a method adds to the trace of a state. -/
def newActions (w : World) (r : Result Ret) : List Action := r.1.trace.drop w.trace.length

/-- The C API function a method forwards to, as read off the method bodies; `none` for the six
methods whose body contains no call of the C API. -/
def Method.forwardsTo : Method → Option CFunction
  | .destructor => some .TpuExecutor_Free
  | .Init _ _ => some .TpuExecutor_Init
  | .PlatformDeviceCount => some .TpuExecutor_PlatformDeviceCount
  | .SyncAndForgetFailedStreams => some .TpuExecutor_SyncAndForgetFailedStreams
  | .SynchronizeAllActivity => some .TpuExecutor_SynchronizeAllActivity
  | .BlockHostUntilDone _ => some .TpuExecutor_BlockHostUntilDone
  | .BlockUntilDoneOrFailed => some .TpuExecutor_BlockUntilDoneOrFailed
  | .GetStatus _ => some .TpuExecutor_GetStatus
  | .AllocateStream _ => some .TpuExecutor_AllocateStream
  | .DeallocateStream _ => some .TpuExecutor_DeallocateStream
  | .CreateStreamDependency _ _ => some .TpuExecutor_CreateStreamDependency
  | .AllocateEvent _ => none
  | .DeallocateEvent _ => none
  | .AllocateTimer _ => none
  | .DeallocateTimer _ => none
  | .StartTimer _ _ => some .TpuExecutor_StartTimer
  | .StopTimer _ _ => some .TpuExecutor_StopTimer
  | .PollForEventStatus _ => some .TpuExecutor_PollForEventStatus
  | .RecordEvent _ _ => some .TpuExecutor_RecordEvent
  | .WaitForEvent _ _ => some .TpuExecutor_WaitForEvent
  | .GetTimerImplementation _ => some .TpuTimer_New
  | .GetStreamImplementation _ => some .TpuStream_New
  | .CreateEventImplementation _ => some .TpuEvent_New
  | .Allocate _ _ => some .TpuExecutor_Allocate
  | .Deallocate _ => some .TpuExecutor_Deallocate
  | .DeallocatePtr _ => some .TpuExecutor_Deallocate
  | .DeviceMemoryUsage => some .TpuExecutor_DeviceMemoryUsage
  | .GetAllocatorStats => some .TpuExecutor_GetAllocatorStats
  | .WaitForInfeedReady _ => some .TpuExecutor_WaitForInfeedReady
  | .WaitForOutfeedReady _ => some .TpuExecutor_WaitForOutfeedReady
  | .DequeueOutfeed _ _ _ => some .TpuExecutor_DequeueOutfeed
  | .EnqueueInfeed _ _ _ => some .TpuExecutor_EnqueueInfeed
  | .MemcpyToHost _ _ _ _ => some .TpuExecutor_MemcpyToHost
  | .MemcpyFromHost _ _ _ _ => some .TpuExecutor_MemcpyFromHost
  | .SynchronousMemcpyFromHost _ _ _ => some .TpuExecutor_SynchronousMemcpyFromHost
  | .SynchronousMemcpyToHost _ _ _ => some .TpuExecutor_SynchronousMemcpyToHost
  | .SynchronousMemcpyDeviceToDevice _ _ _ => none
  | .MemcpyDeviceToDevice _ _ _ _ => none
  | .HostCallback _ _ _ => some .TpuExecutor_HostCallback
  | .CreateDeviceDescription => some .TpuExecutor_CreateDeviceDescription

/-- The statistics record marshalled field by field, the optional limits present when their
flag is set. -/
def marshalAllocatorStats (c : SE_AllocatorStats) : AllocatorStats where
  num_allocs := c.num_allocs
  bytes_in_use := c.bytes_in_use
  peak_bytes_in_use := c.peak_bytes_in_use
  largest_alloc_size := c.largest_alloc_size
  bytes_limit := if c.has_bytes_limit then some c.bytes_limit else none
  bytes_reserved := c.bytes_reserved
  peak_bytes_reserved := c.peak_bytes_reserved
  bytes_reservable_limit :=
    if c.has_bytes_reservable_limit then some c.bytes_reservable_limit else none
  largest_free_block_bytes := c.largest_free_block_bytes

/-- The spec's "wrapped result" of a vendor reply: a written status becomes a `Status`, a
vendor struct becomes its counterpart, a plain value is passed on. -/
def wrapPlain : Reply → Ret
  | .unit => .unit
  | .bool b => .bool b
  | .int n => .int n
  | .handle _ => .unit
  | .status s => .status (StatusHelper.status s)
  | .memory m => .memory (SE_DeviceMemoryBaseToDeviceMemoryBase m)
  | .memoryUsage ok free total => .memoryUsage (if ok then some (free, total) else none)
  | .allocatorStats ok c => .allocatorStats (if ok then some (marshalAllocatorStats c) else none)
  | .description s d =>
    if s.code = 0 then
      .description ⟨d.device_vendor.getD "", d.name, d.clock_rate_ghz, d.core_count,
        d.ecc_enabled, d.device_memory_size, d.platform_version⟩
    else .error (StatusHelper.status s)

/-- The implementation object around a vendor handle. -/
def wrapHandle (impl : Ptr → Ret) : Reply → Ret
  | .handle h => impl h
  | _ => .unit

/-- The spec's "wrapped result" of a vendor reply, for the method that made the call: the three
factory methods return the implementation object around the handle, `DequeueOutfeed` returns
nothing (it hands the wrapped status to `done`), every other method returns `wrapPlain`. -/
def wrapReply : Method → Reply → Ret
  | .GetTimerImplementation ptr, r => wrapHandle (fun h => .timer ptr ⟨h⟩) r
  | .GetStreamImplementation ptr, r => wrapHandle (fun h => .stream ptr ⟨h⟩) r
  | .CreateEventImplementation ptr, r => wrapHandle (fun h => .event ptr ⟨h⟩) r
  | .DequeueOutfeed _ _ _, _ => .unit
  | _, r => wrapPlain r

/-- The claim "the method is a one-to-one forward": the method returns, one of the actions it
added is a call of the C API, and its return value is the wrapped reply of that call. -/
def ForwardsToVendor (v : Vendor) (m : Method) (w : World) : Prop :=
  ∃ ret c r, (run v m w).2 = .ok ret ∧ Action.vendor c r ∈ newActions w (run v m w) ∧
    ret = wrapReply m r

/-- The statuses that the vendor calls among some actions wrote to their `SE_Status`. -/
def writtenStatuses : List Action → List SE_Status
  | [] => []
  | .vendor _ (.status s) :: rest => s :: writtenStatuses rest
  | _ :: rest => writtenStatuses rest

/-- The claim "the returned `Status` is exactly the status written by the single vendor call the
method makes": exactly one vendor call of the method wrote a status, and the method returns
that status wrapped. -/
def ReturnsVendorStatus (v : Vendor) (m : Method) (w : World) : Prop :=
  ∃ s, writtenStatuses (newActions w (run v m w)) = [s] ∧
    (run v m w).2 = .ok (.status (StatusHelper.status s))

/-- The `Status`-returning methods whose body hands a `StatusHelper` to a vendor call. -/
def Method.handsStatusToVendor : Method → Bool
  | .Init _ _ => true
  | .BlockHostUntilDone _ => true
  | .BlockUntilDoneOrFailed => true
  | .GetStatus _ => true
  | .RecordEvent _ _ => true
  | .WaitForEvent _ _ => true
  | .WaitForInfeedReady _ => true
  | .WaitForOutfeedReady _ => true
  | .EnqueueInfeed _ _ _ => true
  | .SynchronousMemcpyFromHost _ _ _ => true
  | .SynchronousMemcpyToHost _ _ _ => true
  | _ => false

/-- The claim "the trampoline returns a vendor status created with exactly the code and error
message of the `Status` that `f` returned": the trampoline, invoked on `ctx`, returns a vendor
status that a `TpuStatus_Create` call of this invocation made from the code and the whole
message of `f ()`. -/
def TrampolineTranslates (v : Vendor) (f : Unit → Status) (ctx : Ptr) (w : World) : Prop :=
  ∃ c_status, (HostCallbackTrampoline v ctx w).2 = .ok c_status ∧
    Action.vendor ⟨.TpuStatus_Create, [.int (f ()).code, .str (f ()).error_message]⟩
        (.handle c_status) ∈
      (HostCallbackTrampoline v ctx w).1.trace.drop w.trace.length

/-- A status for examples whose message has an embedded NUL: the characters `a`, NUL, `b`. -/
def statusWithNUL : Status := ⟨3, ⟨['a', NUL, 'b']⟩⟩

/-- The `CHECK_NE(description->device_vendor, nullptr)` of `CreateDeviceDescription` passes:
the vendor call reports an error or fills in a non-null `device_vendor`. -/
def deviceVendorChecked (v : Vendor) (w : World) : Bool :=
  let new : Call := ⟨.TpuDeviceDescription_New, []⟩
  let description := v.handle w.trace new
  let create : Call := ⟨.TpuExecutor_CreateDeviceDescription, [.ptr w.executor_, .ptr description]⟩
  let w1 := w.log (.vendor new (.handle description))
  (v.status w1.trace create).code != 0 || (v.description w1.trace create).device_vendor.isSome

/-- The handles a method looks up are registered (and, for `CreateDeviceDescription`, its
`CHECK` passes). -/
def Method.ready (v : Vendor) (w : World) : Method → Bool
  | .BlockHostUntilDone stream => (w.stream_map.at_ stream.implementation).isSome
  | .GetStatus stream => (w.stream_map.at_ stream.implementation).isSome
  | .AllocateStream stream => (w.stream_map.at_ stream.implementation).isSome
  | .DeallocateStream stream => (w.stream_map.at_ stream.implementation).isSome
  | .CreateStreamDependency dependent other =>
    (w.stream_map.at_ dependent.implementation).isSome &&
      (w.stream_map.at_ other.implementation).isSome
  | .StartTimer stream timer =>
    (w.stream_map.at_ stream.implementation).isSome &&
      (w.timer_map_.at_ timer.implementation).isSome
  | .StopTimer stream timer =>
    (w.stream_map.at_ stream.implementation).isSome &&
      (w.timer_map_.at_ timer.implementation).isSome
  | .PollForEventStatus event => (w.event_map.at_ event.implementation).isSome
  | .RecordEvent stream event =>
    (w.stream_map.at_ stream.implementation).isSome &&
      (w.event_map.at_ event.implementation).isSome
  | .WaitForEvent stream event =>
    (w.stream_map.at_ stream.implementation).isSome &&
      (w.event_map.at_ event.implementation).isSome
  | .MemcpyToHost stream _ _ _ => (w.stream_map.at_ stream.implementation).isSome
  | .MemcpyFromHost stream _ _ _ => (w.stream_map.at_ stream.implementation).isSome
  | .HostCallback stream _ _ => (w.stream_map.at_ stream.implementation).isSome
  | .CreateDeviceDescription => deviceVendorChecked v w
  | _ => true

/-- The state after a sequence of method calls, each one run on the state that the one before
it left. -/
def runAll (v : Vendor) : List Method → World → World
  | [], w => w
  | m :: ms, w => runAll v ms (run v m w).1

/-- The stream implementations that are live after one more method call:
`GetStreamImplementation` adds the implementation it returns, `DeallocateStream` removes the
implementation of the stream it is given, every other method leaves the set alone. -/
def liveStep (live : Ptr → Bool) : Method → Ptr → Bool
  | .GetStreamImplementation ptr => Function.update live ptr true
  | .DeallocateStream stream => Function.update live stream.implementation false
  | _ => live

/-- The stream implementations that are live after a sequence of method calls: the ones
returned by `GetStreamImplementation` and not since passed to `DeallocateStream`. -/
def liveAfter (live : Ptr → Bool) : List Method → Ptr → Bool
  | [] => live
  | m :: ms => liveAfter (liveStep live m) ms

/-- The stream implementations that a method looks up in `stream_map()`; the methods with a
non-empty list are the stream operations. -/
def Method.streams : Method → List Ptr
  | .BlockHostUntilDone stream => [stream.implementation]
  | .GetStatus stream => [stream.implementation]
  | .AllocateStream stream => [stream.implementation]
  | .DeallocateStream stream => [stream.implementation]
  | .CreateStreamDependency dependent other => [dependent.implementation, other.implementation]
  | .StartTimer stream _ => [stream.implementation]
  | .StopTimer stream _ => [stream.implementation]
  | .RecordEvent stream _ => [stream.implementation]
  | .WaitForEvent stream _ => [stream.implementation]
  | .MemcpyToHost stream _ _ _ => [stream.implementation]
  | .MemcpyFromHost stream _ _ _ => [stream.implementation]
  | .HostCallback stream _ _ => [stream.implementation]
  | _ => []

/-- The timer or event that a stream operation looks up in `timer_map_` or `event_map()` is
registered. -/
def Method.othersRegistered (w : World) : Method → Bool
  | .StartTimer _ timer => (w.timer_map_.at_ timer.implementation).isSome
  | .StopTimer _ timer => (w.timer_map_.at_ timer.implementation).isSome
  | .RecordEvent _ event => (w.event_map.at_ event.implementation).isSome
  | .WaitForEvent _ event => (w.event_map.at_ event.implementation).isSome
  | _ => true

/-- A device runtime for examples: handles are numbered by the length of the history,
`TpuExecutor_GetStatus` reports a failed stream, every other call reports OK. -/
def exampleVendor : Vendor where
  bool := fun _ _ => true
  int := fun _ _ => 4
  handle := fun history _ => 1000 + history.length
  status := fun _ c => if c.fn = .TpuExecutor_GetStatus then ⟨3, "stream failed"⟩ else ⟨0, ""⟩
  memory := fun _ _ => ⟨64, 8, 0⟩
  int2 := fun _ _ => (10, 20)
  allocatorStats := fun _ _ => ⟨1, 2, 3, 4, true, 5, 6, 7, false, 8, 9⟩
  description := fun _ _ => ⟨some "Google", "TPU", 940, 2, true, 16, "v3"⟩

/-- A device runtime for examples that reports an error from every call. -/
def failingVendor : Vendor where
  bool := fun _ _ => false
  int := fun _ _ => 0
  handle := fun history _ => 2000 + history.length
  status := fun _ _ => ⟨13, "device lost"⟩
  memory := fun _ _ => ⟨0, 0, 0⟩
  int2 := fun _ _ => (0, 0)
  allocatorStats := fun _ _ => ⟨0, 0, 0, 0, false, 0, 0, 0, false, 0, 0⟩
  description := fun _ _ => ⟨none, "", 0, 0, false, 0, ""⟩

/-- A state for examples: executor `1`, the stream implementation `10` registered with handle
`110`, the event implementation `30` registered with handle `130`, no timer, no context. -/
def exampleWorld : World where
  executor_ := 1
  stream_map := fun p => if p = 10 then some 110 else none
  timer_map_ := fun _ => none
  event_map := fun p => if p = 30 then some 130 else none
  contexts := fun _ => none
  trace := []

/-- A state for examples with empty tables: executor `1`, nothing registered. -/
def emptyWorld : World where
  executor_ := 1
  stream_map := fun _ => none
  timer_map_ := fun _ => none
  event_map := fun _ => none
  contexts := fun _ => none
  trace := []

end tpu

/-! ## Part 2. Theorems -/

/-! ### Part 2a. The GPU kernels -/

namespace rocm_kernels

open Classical in
/-- A loop whose body writes `f index` to cell `index`: with enough iterations allowed, the
thread that starts at `index` writes exactly the cells `index + k * stride` below `nthreads`. -/
theorem gridStrideLoop_write {α : Type} (stride : Nat) (hs : 0 < stride) (nthreads : Int)
    (f : Nat → α) (fuel index : Nat) (out : Nat → α) (j : Nat)
    (hfuel : nthreads.toNat ≤ fuel + index) :
    gridStrideLoop stride nthreads (fun i o => Function.update o i (f i)) fuel index out j =
      if (j : Int) < nthreads ∧ ∃ k, j = index + k * stride then f j else out j := by
  induction fuel generalizing index out with
  | zero =>
    have hno : ¬ ((j : Int) < nthreads ∧ ∃ k, j = index + k * stride) := by
      rintro ⟨h1, k, rfl⟩
      have : 0 ≤ k * stride := Nat.zero_le _
      omega
    simp [gridStrideLoop, hno]
  | succ fuel ih =>
    simp only [gridStrideLoop]
    by_cases hlt : (index : Int) < nthreads
    · rw [if_pos hlt, ih (index + stride) _ (by omega)]
      by_cases hj : j = index
      · subst hj
        have h1 : ¬ ((j : Int) < nthreads ∧ ∃ k, j = j + stride + k * stride) := by
          rintro ⟨_, k, hk⟩
          have : 0 ≤ k * stride := Nat.zero_le _
          omega
        have h2 : (j : Int) < nthreads ∧ ∃ k, j = j + k * stride := ⟨hlt, 0, by simp⟩
        rw [if_neg h1, if_pos h2]
        simp
      · have hiff : ((j : Int) < nthreads ∧ ∃ k, j = index + stride + k * stride) ↔
            ((j : Int) < nthreads ∧ ∃ k, j = index + k * stride) := by
          constructor
          · rintro ⟨h, k, hk⟩
            exact ⟨h, k + 1, by rw [hk]; ring⟩
          · rintro ⟨h, k, hk⟩
            cases k with
            | zero => exact absurd (by simpa using hk) hj
            | succ k => exact ⟨h, k, by rw [hk]; ring⟩
        simp only [hiff, Function.update_noteq hj]
    · rw [if_neg hlt]
      have hno : ¬ ((j : Int) < nthreads ∧ ∃ k, j = index + k * stride) := by
        rintro ⟨h1, k, rfl⟩
        have : 0 ≤ k * stride := Nat.zero_le _
        push_cast at h1
        omega
      rw [if_neg hno]

open Classical in
/-- Running, one after the other, writers that each overwrite the cells selected by `P x` with
`f` overwrites exactly the cells selected by one of them. -/
theorem foldl_write {ι α : Type} (g : ι → (Nat → α) → (Nat → α)) (P : ι → Nat → Prop)
    (f : Nat → α) (hg : ∀ x out j, g x out j = if P x j then f j else out j)
    (L : List ι) (out : Nat → α) (j : Nat) :
    L.foldl (fun o x => g x o) out j = if ∃ x ∈ L, P x j then f j else out j := by
  induction L generalizing out with
  | nil => simp
  | cons x L ih =>
    rw [List.foldl_cons, ih, hg]
    by_cases hx : P x j
    · have h : ∃ y ∈ x :: L, P y j := ⟨x, List.mem_cons_self _ _, hx⟩
      rw [if_pos hx, if_pos h]
      split <;> rfl
    · rw [if_neg hx]
      have hiff : (∃ y ∈ x :: L, P y j) ↔ ∃ y ∈ L, P y j := by
        constructor
        · rintro ⟨y, hy, hp⟩
          rcases List.mem_cons.1 hy with rfl | hy
          · exact absurd hp hx
          · exact ⟨y, hy, hp⟩
        · rintro ⟨y, hy, hp⟩
          exact ⟨y, List.mem_cons_of_mem _ hy, hp⟩
      simp only [hiff]

/-- Every cell index is reached by exactly the thread whose global id is its residue modulo the
number of launched threads. -/
theorem LaunchDims.covers (d : LaunchDims) (j : Nat) :
    ∃ b ∈ List.range d.gridDim, ∃ t ∈ List.range d.blockDim,
      ∃ k, j = b * d.blockDim + t + k * (d.blockDim * d.gridDim) := by
  have hbd := d.blockDim_pos
  have hgd := d.gridDim_pos
  have hq : j % (d.blockDim * d.gridDim) < d.blockDim * d.gridDim :=
    Nat.mod_lt _ (Nat.mul_pos hbd hgd)
  refine ⟨j % (d.blockDim * d.gridDim) / d.blockDim, ?_,
    j % (d.blockDim * d.gridDim) % d.blockDim, ?_, j / (d.blockDim * d.gridDim), ?_⟩
  · exact List.mem_range.2 (Nat.div_lt_of_lt_mul hq)
  · exact List.mem_range.2 (Nat.mod_lt _ hbd)
  · have h1 := Nat.div_add_mod (j % (d.blockDim * d.gridDim)) d.blockDim
    have h2 := Nat.div_add_mod j (d.blockDim * d.gridDim)
    rw [Nat.mul_comm (j % (d.blockDim * d.gridDim) / d.blockDim) d.blockDim, h1,
      Nat.mul_comm (j / (d.blockDim * d.gridDim))]
    omega

/-- An elementwise kernel whose body is `out[index] = f index`, launched on a whole grid:
afterwards exactly the cells below `nthreads` hold `f`. -/
theorem launch_write {α : Type} (d : LaunchDims) (nthreads : Int) (f : Nat → α)
    (out : Nat → α) (j : Nat) :
    GPU_LAUNCH_KERNEL d
      (fun b t o => GPU_1D_KERNEL_LOOP d b t nthreads (fun i o => Function.update o i (f i)) o)
      out j = if (j : Int) < nthreads then f j else out j := by
  classical
  have hstride : 0 < d.blockDim * d.gridDim := Nat.mul_pos d.blockDim_pos d.gridDim_pos
  unfold GPU_LAUNCH_KERNEL
  rw [foldl_write
    (fun b o => (List.range d.blockDim).foldl
      (fun o t => GPU_1D_KERNEL_LOOP d b t nthreads (fun i o => Function.update o i (f i)) o) o)
    (fun b j => ∃ t ∈ List.range d.blockDim,
      (j : Int) < nthreads ∧ ∃ k, j = b * d.blockDim + t + k * (d.blockDim * d.gridDim)) f]
  · by_cases hj : (j : Int) < nthreads
    · obtain ⟨b, hb, t, ht, k, hk⟩ := d.covers j
      rw [if_pos hj, if_pos ⟨b, hb, t, ht, hj, k, hk⟩]
    · rw [if_neg hj, if_neg]
      rintro ⟨b, _, t, _, h, _⟩
      exact hj h
  · intro b o i
    rw [foldl_write
      (fun t o => GPU_1D_KERNEL_LOOP d b t nthreads (fun i o => Function.update o i (f i)) o)
      (fun t j => (j : Int) < nthreads ∧
        ∃ k, j = b * d.blockDim + t + k * (d.blockDim * d.gridDim)) f]
    · congr
    · intro t o i
      unfold GPU_1D_KERNEL_LOOP
      rw [gridStrideLoop_write _ hstride _ _ _ _ _ _ (by omega)]
      congr

/-- C1. `AddReluKernel` (float) is a saturating add: after the launch, every cell `i` with
`0 ≤ i < nthreads` holds `max 0 (in0 i + in1 i)`, which is non-negative, equals the sum when
the sum is positive and is `0` otherwise; every cell `j ≥ nthreads` is left unchanged. The
element type is an exact ordered field. -/
theorem AddReluKernel_saturating_add {α : Type} [LinearOrderedField α] (d : LaunchDims)
    (nthreads : Int) (in0 in1 out : Nat → α) :
    (∀ i : Nat, (i : Int) < nthreads →
      launchAddRelu d nthreads in0 in1 out i = max 0 (in0 i + in1 i) ∧
      0 ≤ launchAddRelu d nthreads in0 in1 out i ∧
      (0 < in0 i + in1 i → launchAddRelu d nthreads in0 in1 out i = in0 i + in1 i) ∧
      (in0 i + in1 i ≤ 0 → launchAddRelu d nthreads in0 in1 out i = 0)) ∧
    (∀ j : Nat, nthreads ≤ (j : Int) → launchAddRelu d nthreads in0 in1 out j = out j) := by
  have key : ∀ j : Nat, launchAddRelu d nthreads in0 in1 out j =
      if (j : Int) < nthreads then max 0 (in0 j + in1 j) else out j := fun j =>
    launch_write d nthreads (fun i => max 0 (in0 i + in1 i)) out j
  refine ⟨fun i hi => ?_, fun j hj => ?_⟩
  · rw [key, if_pos hi]
    exact ⟨rfl, le_max_left _ _, fun h => max_eq_right h.le, fun h => max_eq_left h⟩
  · rw [key, if_neg (not_lt.2 hj)]

/-- C1, at a concrete launch: 2 blocks of 3 threads, `nthreads = 8`, rational cells. -/
theorem AddReluKernel_saturating_add_witness :
    (launchAddRelu ⟨2, 3, by decide, by decide⟩ 8 (fun i => (i : ℚ) - 3) (fun _ => 1 / 2)
        (fun _ => 7) 7 = max 0 (((7 : Nat) : ℚ) - 3 + 1 / 2)) ∧
    (launchAddRelu ⟨2, 3, by decide, by decide⟩ 8 (fun i => (i : ℚ) - 3) (fun _ => 1 / 2)
        (fun _ => 7) 9 = 7) :=
  ⟨((AddReluKernel_saturating_add ⟨2, 3, by decide, by decide⟩ 8 (fun i => (i : ℚ) - 3)
      (fun _ => 1 / 2) (fun _ => 7)).1 7 (by decide)).1,
   (AddReluKernel_saturating_add ⟨2, 3, by decide, by decide⟩ 8 (fun i => (i : ℚ) - 3)
      (fun _ => 1 / 2) (fun _ => 7)).2 9 (by decide)⟩

/-- C2. `AddNReluGradKernel` (float) is a gated add: after the launch, every cell `i` with
`0 ≤ i < nthreads` holds `in0 i + in1 i` if `in2 i > 0` and `0` if `in2 i ≤ 0` (so `in2 i = 0`
gives `0`); with the gate closed the cell does not depend on `in0`, `in1`; every cell
`j ≥ nthreads` is left unchanged. -/
theorem AddNReluGradKernel_gated_add {α : Type} [LinearOrderedField α] (d : LaunchDims)
    (nthreads : Int) (in0 in1 in2 out : Nat → α) :
    (∀ i : Nat, (i : Int) < nthreads →
      (0 < in2 i → launchAddNReluGrad d nthreads in0 in1 in2 out i = in0 i + in1 i) ∧
      (in2 i ≤ 0 → launchAddNReluGrad d nthreads in0 in1 in2 out i = 0) ∧
      (in2 i = 0 → launchAddNReluGrad d nthreads in0 in1 in2 out i = 0) ∧
      (in2 i ≤ 0 → ∀ in0' in1' : Nat → α,
        launchAddNReluGrad d nthreads in0' in1' in2 out i =
          launchAddNReluGrad d nthreads in0 in1 in2 out i)) ∧
    (∀ j : Nat, nthreads ≤ (j : Int) → launchAddNReluGrad d nthreads in0 in1 in2 out j = out j) := by
  have key : ∀ (a b : Nat → α) (j : Nat), launchAddNReluGrad d nthreads a b in2 out j =
      if (j : Int) < nthreads then (if in2 j > 0 then a j + b j else 0) else out j :=
    fun a b j => launch_write d nthreads (fun i => if in2 i > 0 then a i + b i else 0) out j
  refine ⟨fun i hi => ⟨fun h => ?_, fun h => ?_, fun h => ?_, fun h a b => ?_⟩, fun j hj => ?_⟩
  · rw [key, if_pos hi, if_pos h]
  · rw [key, if_pos hi, if_neg (not_lt.2 h)]
  · rw [key, if_pos hi, if_neg (not_lt.2 h.le)]
  · rw [key, key, if_pos hi, if_pos hi, if_neg (not_lt.2 h), if_neg (not_lt.2 h)]
  · rw [key, if_neg (not_lt.2 hj)]

/-- C2, at a concrete launch: 2 blocks of 2 threads, `nthreads = 7`, rational cells, the gate
open at cell 5 and closed (at exactly `0`) at cell 3. -/
theorem AddNReluGradKernel_gated_add_witness :
    (launchAddNReluGrad ⟨2, 2, by decide, by decide⟩ 7 (fun i => (i : ℚ)) (fun _ => 1 / 2)
        (fun i => (i : ℚ) - 3) (fun _ => 9) 5 = ((5 : Nat) : ℚ) + 1 / 2) ∧
    (launchAddNReluGrad ⟨2, 2, by decide, by decide⟩ 7 (fun i => (i : ℚ)) (fun _ => 1 / 2)
        (fun i => (i : ℚ) - 3) (fun _ => 9) 3 = 0) ∧
    (launchAddNReluGrad ⟨2, 2, by decide, by decide⟩ 7 (fun i => (i : ℚ)) (fun _ => 1 / 2)
        (fun i => (i : ℚ) - 3) (fun _ => 9) 7 = 9) :=
  ⟨((AddNReluGradKernel_gated_add ⟨2, 2, by decide, by decide⟩ 7 (fun i => (i : ℚ))
      (fun _ => 1 / 2) (fun i => (i : ℚ) - 3) (fun _ => 9)).1 5 (by decide)).1 (by norm_num),
   ((AddNReluGradKernel_gated_add ⟨2, 2, by decide, by decide⟩ 7 (fun i => (i : ℚ))
      (fun _ => 1 / 2) (fun i => (i : ℚ) - 3) (fun _ => 9)).1 3 (by decide)).2.2.1 (by norm_num),
   (AddNReluGradKernel_gated_add ⟨2, 2, by decide, by decide⟩ 7 (fun i => (i : ℚ))
      (fun _ => 1 / 2) (fun i => (i : ℚ) - 3) (fun _ => 9)).2 7 (by decide)⟩

end rocm_kernels

/-! ### Part 2b. The rocsolver call shims -/

namespace wrap

namespace DynLoadShim

theorem lookups_append {Args : Type} (xs ys : List (Event Args)) :
    lookups (xs ++ ys) = lookups xs ++ lookups ys := by
  induction xs with
  | nil => rfl
  | cons e xs ih => cases e <;> simp [lookups, ih]

theorem pointerCalls_append {Args : Type} (xs ys : List (Event Args)) :
    pointerCalls (xs ++ ys) = pointerCalls xs ++ pointerCalls ys := by
  induction xs with
  | nil => rfl
  | cons e xs ih => cases e <;> simp [pointerCalls, ih]

theorem lookups_map_call {Args : Type} (f : Address) (argss : List Args) :
    lookups (argss.map (Event.call f)) = [] := by
  induction argss with
  | nil => rfl
  | cons a argss ih => simpa [lookups] using ih

theorem pointerCalls_map_call {Args : Type} (f : Address) (argss : List Args) :
    pointerCalls (argss.map (Event.call f)) = argss.map (fun a => (f, a)) := by
  induction argss with
  | nil => rfl
  | cons a argss ih => simpa [pointerCalls] using ih

/-- Once the static is initialised, a call sequence makes no lookup: every call goes through
the cached pointer. -/
theorem calls_loaded {Args : Type} (env : Env Args) (api : RocsolverApi) (f : Address)
    (argss : List Args) (s : DynLoadShim Args) (hs : s.f = some f) :
    calls env api argss s =
      (⟨some f, s.trace ++ argss.map (Event.call f)⟩, .ok (argss.map (env.code f))) := by
  induction argss generalizing s with
  | nil => cases s; simp_all [calls]
  | cons a argss ih =>
    have hc : call env api a s = (s.log (.call f a), .ok (env.code f a)) := by
      simp [call, DynLoad, hs]
    simp only [calls, hc]
    rw [ih (s.log (.call f a)) (by simpa [log] using hs)]
    simp [log]

/-- The first call with a library handle and a successful lookup. -/
theorem calls_init_ok {Args : Type} (env : Env Args) (api : RocsolverApi) (handle f : Address)
    (st : Status) (a : Args) (argss : List Args)
    (hh : env.GetRocsolverDsoHandle = .ok handle)
    (hl : env.GetSymbolFromLibrary handle (kName api) = (st, f)) (hok : st.ok = true) :
    calls env api (a :: argss) init =
      (⟨some f, Event.lookup handle (kName api) :: (a :: argss).map (Event.call f)⟩,
        .ok ((a :: argss).map (env.code f))) := by
  have hc : call env api a init =
      (⟨some f, [Event.lookup handle (kName api), Event.call f a]⟩, .ok (env.code f a)) := by
    simp [call, DynLoad, LoadOrDie, GetDsoHandle, init, hh, hl, hok, log]
  simp only [calls, hc]
  rw [calls_loaded env api f argss _ rfl]
  simp

/-- The first call with a library handle and a failed lookup. -/
theorem calls_init_check {Args : Type} (env : Env Args) (api : RocsolverApi)
    (handle f : Address) (st : Status) (a : Args) (argss : List Args)
    (hh : env.GetRocsolverDsoHandle = .ok handle)
    (hl : env.GetSymbolFromLibrary handle (kName api) = (st, f)) (hok : st.ok = false) :
    calls env api (a :: argss) init =
      (⟨none, [Event.lookup handle (kName api)]⟩, .error .CHECK) := by
  have hc : call env api a init = (⟨none, [Event.lookup handle (kName api)]⟩, .error .CHECK) := by
    simp [call, DynLoad, LoadOrDie, GetDsoHandle, init, hh, hl, hok, log]
  simp only [calls, hc]

/-- The first call without a library handle. -/
theorem calls_init_nohandle {Args : Type} (env : Env Args) (api : RocsolverApi)
    (e : Status) (a : Args) (argss : List Args)
    (hh : env.GetRocsolverDsoHandle = .error e) :
    calls env api (a :: argss) init = (⟨none, []⟩, .error .ValueOrDie) := by
  have hc : call env api a init = (⟨none, []⟩, .error .ValueOrDie) := by
    simp [call, DynLoad, LoadOrDie, GetDsoHandle, init, hh]
  simp only [calls, hc]

end DynLoadShim

open DynLoadShim in
/-- C5. Each rocsolver wrapper returns the status of the vendor function of its own name on
the same arguments, in the direct-call build and in the dynamic-load build. In the
dynamic-load build the symbol looked up is the wrapper's own name (`kName`), there is no lookup
before the first call, over a sequence of calls of one wrapper the lookup happens at most once
(it is the first event of the first call) and the function pointer is called once per wrapper
call; if the lookup reports a non-OK status the wrapper aborts without calling any function
pointer. -/
theorem rocsolver_wrapper_forwards {Args : Type} (env : Env Args) (api : RocsolverApi)
    (argss : List Args) :
    (∀ args, WrapperShim env api args = env.vendor (kName api) args) ∧
    (kName .rocsolver_spotrf = "rocsolver_spotrf" ∧ kName .rocsolver_dpotrf = "rocsolver_dpotrf" ∧
      kName .rocsolver_cpotrf = "rocsolver_cpotrf" ∧ kName .rocsolver_zpotrf = "rocsolver_zpotrf") ∧
    ((init : DynLoadShim Args).f = none ∧ lookups (init : DynLoadShim Args).trace = []) ∧
    (lookups (calls env api argss init).1.trace).length ≤ 1 ∧
    (∀ e ∈ lookups (calls env api argss init).1.trace, e.2 = kName api) ∧
    (∀ handle f st, env.GetRocsolverDsoHandle = .ok handle →
      env.GetSymbolFromLibrary handle (kName api) = (st, f) → st.ok = true →
      (calls env api argss init).2 = .ok (argss.map (env.code f)) ∧
      pointerCalls (calls env api argss init).1.trace = argss.map (fun a => (f, a)) ∧
      (argss ≠ [] → lookups (calls env api argss init).1.trace = [(handle, kName api)]) ∧
      (argss ≠ [] → (calls env api argss init).1.trace =
        Event.lookup handle (kName api) :: argss.map (Event.call f)) ∧
      (env.code f = env.vendor (kName api) →
        (calls env api argss init).2 = .ok (argss.map (env.vendor (kName api))))) ∧
    (∀ handle f st, env.GetRocsolverDsoHandle = .ok handle →
      env.GetSymbolFromLibrary handle (kName api) = (st, f) → st.ok = false → argss ≠ [] →
      (calls env api argss init).2 = .error .CHECK ∧
      pointerCalls (calls env api argss init).1.trace = [] ∧
      lookups (calls env api argss init).1.trace = [(handle, kName api)]) := by
  refine ⟨fun _ => rfl, ⟨rfl, rfl, rfl, rfl⟩, ⟨rfl, rfl⟩, ?_, ?_, ?_, ?_⟩
  · cases argss with
    | nil => simp [calls, init, lookups]
    | cons a argss =>
      cases hh : env.GetRocsolverDsoHandle with
      | error e => simp [calls_init_nohandle env api e a argss hh, lookups]
      | ok handle =>
        rcases hl : env.GetSymbolFromLibrary handle (kName api) with ⟨st, f⟩
        cases hok : st.ok with
        | true =>
          rw [calls_init_ok env api handle f st a argss hh hl hok]
          simp only [lookups]
          rw [lookups_map_call]
          simp
        | false => simp [calls_init_check env api handle f st a argss hh hl hok, lookups]
  · cases argss with
    | nil => simp [calls, init, lookups]
    | cons a argss =>
      cases hh : env.GetRocsolverDsoHandle with
      | error e => simp [calls_init_nohandle env api e a argss hh, lookups]
      | ok handle =>
        rcases hl : env.GetSymbolFromLibrary handle (kName api) with ⟨st, f⟩
        cases hok : st.ok with
        | true =>
          rw [calls_init_ok env api handle f st a argss hh hl hok]
          simp only [lookups]
          rw [lookups_map_call]
          simp
        | false => simp [calls_init_check env api handle f st a argss hh hl hok, lookups]
  · intro handle f st hh hl hok
    cases argss with
    | nil =>
      refine ⟨rfl, rfl, fun h => absurd rfl h, fun h => absurd rfl h, fun _ => rfl⟩
    | cons a argss =>
      rw [calls_init_ok env api handle f st a argss hh hl hok]
      refine ⟨rfl, ?_, fun _ => ?_, fun _ => rfl, fun h => ?_⟩
      · simp only [pointerCalls, List.map_cons]
        rw [pointerCalls_map_call]
      · simp only [lookups]
        rw [lookups_map_call]
      · rw [h]
  · intro handle f st hh hl hok hne
    cases argss with
    | nil => exact absurd rfl hne
    | cons a argss =>
      rw [calls_init_check env api handle f st a argss hh hl hok]
      exact ⟨rfl, rfl, rfl⟩

open DynLoadShim in
/-- C5, at a concrete environment: three calls of `rocsolver_spotrf`, whose lookup succeeds,
and one call of `rocsolver_zpotrf`, whose lookup fails. -/
theorem rocsolver_wrapper_forwards_witness :
    ((calls exampleEnv .rocsolver_spotrf [1, 2, 3] init).2 =
        .ok ([1, 2, 3].map (exampleEnv.vendor (kName .rocsolver_spotrf))) ∧
      lookups (calls exampleEnv .rocsolver_spotrf [1, 2, 3] init).1.trace =
        [(7, kName .rocsolver_spotrf)]) ∧
    ((calls exampleEnv .rocsolver_zpotrf [4] init).2 = .error .CHECK ∧
      pointerCalls (calls exampleEnv .rocsolver_zpotrf [4] init).1.trace = [] ∧
      lookups (calls exampleEnv .rocsolver_zpotrf [4] init).1.trace =
        [(7, kName .rocsolver_zpotrf)]) :=
  ⟨⟨((rocsolver_wrapper_forwards exampleEnv .rocsolver_spotrf [1, 2, 3]).2.2.2.2.2.1
        7 100 Status.OK rfl (by decide) rfl).2.2.2.2 rfl,
     ((rocsolver_wrapper_forwards exampleEnv .rocsolver_spotrf [1, 2, 3]).2.2.2.2.2.1
        7 100 Status.OK rfl (by decide) rfl).2.2.1 (by simp)⟩,
   (rocsolver_wrapper_forwards exampleEnv .rocsolver_zpotrf [4]).2.2.2.2.2.2
      7 0 ⟨5, "undefined symbol"⟩ rfl (by decide) rfl (by simp)⟩

end wrap

/-! ### Part 2c. The TPU executor facade -/

namespace tpu

namespace TpuExecutor

/-- C7. `DeallocateStream` on a stream whose implementation is registered with handle `h` calls
the vendor deallocation with `h` and then removes exactly that entry: the implementation is
absent afterwards, every other stream entry and the timer and event tables are unchanged, and
a second `DeallocateStream` of the same stream fails at the lookup. On a stream whose
implementation is not in the table it fails at the lookup and leaves the state (tables and
trace of vendor calls) unchanged. -/
theorem DeallocateStream_frame (v : Vendor) (stream : Stream) (w : World) :
    (∀ h, w.stream_map.at_ stream.implementation = some h →
      (DeallocateStream v stream w).2 = .ok () ∧
      (DeallocateStream v stream w).1.trace = w.trace ++
        [.vendor ⟨.TpuExecutor_DeallocateStream, [.ptr w.executor_, .ptr h]⟩ .unit] ∧
      (DeallocateStream v stream w).1.stream_map.at_ stream.implementation = none ∧
      (∀ q, q ≠ stream.implementation →
        (DeallocateStream v stream w).1.stream_map.at_ q = w.stream_map.at_ q) ∧
      (DeallocateStream v stream w).1.timer_map_ = w.timer_map_ ∧
      (DeallocateStream v stream w).1.event_map = w.event_map ∧
      DeallocateStream v stream (DeallocateStream v stream w).1 =
        ((DeallocateStream v stream w).1, .error .out_of_range)) ∧
    (w.stream_map.at_ stream.implementation = none →
      DeallocateStream v stream w = (w, .error .out_of_range)) := by
  constructor
  · intro h hh
    have hd : DeallocateStream v stream w =
        ({ (callUnit v ⟨.TpuExecutor_DeallocateStream, [.ptr w.executor_, .ptr h]⟩ w) with
            stream_map := w.stream_map.erase stream.implementation }, .ok ()) := by
      simp [DeallocateStream, atStream, hh, callUnit, World.log]
    rw [hd]
    refine ⟨rfl, rfl, ?_, ?_, rfl, rfl, ?_⟩
    · simp [Table.at_, Table.erase]
    · intro q hq
      simp [Table.at_, Table.erase, Function.update_noteq hq]
    · simp [DeallocateStream, atStream, Table.at_, Table.erase]
  · intro hh
    simp [DeallocateStream, atStream, hh]

/-- C7, at a concrete state: the registered stream `10` and the unregistered stream `11`. -/
theorem DeallocateStream_frame_witness :
    ((DeallocateStream exampleVendor ⟨10⟩ exampleWorld).1.trace =
        [.vendor ⟨.TpuExecutor_DeallocateStream, [.ptr 1, .ptr 110]⟩ .unit] ∧
      (DeallocateStream exampleVendor ⟨10⟩ exampleWorld).1.stream_map.at_ 10 = none) ∧
    DeallocateStream exampleVendor ⟨11⟩ exampleWorld = (exampleWorld, .error .out_of_range) :=
  ⟨⟨((DeallocateStream_frame exampleVendor ⟨10⟩ exampleWorld).1 110 rfl).2.1,
    ((DeallocateStream_frame exampleVendor ⟨10⟩ exampleWorld).1 110 rfl).2.2.1⟩,
   (DeallocateStream_frame exampleVendor ⟨11⟩ exampleWorld).2 rfl⟩

/-- C6. Handle registration round trip. `GetStreamImplementation` (resp.
`GetTimerImplementation`, `CreateEventImplementation`) obtains a vendor handle `h` from
`TpuStream_New` (resp. `TpuTimer_New`, `TpuEvent_New`), returns the new implementation object
at `ptr` wrapping `h`, and records `ptr -> h` in the stream (resp. timer, event) table; every
other entry of that table and both other tables are unchanged. A following stream operation
on a stream whose implementation is `ptr` passes exactly `h` to the vendor call, in the place
of that stream: `BlockHostUntilDone`, `GetStatus`, `AllocateStream`, `DeallocateStream`, both
`Memcpy` overloads, `HostCallback`, `StartTimer` and `StopTimer` (with a registered timer),
`RecordEvent` and `WaitForEvent` (with a registered event), and `CreateStreamDependency` with
the stream as the dependent or as the other stream (the second stream being registered). -/
theorem registration_round_trip (v : Vendor) (ptr : Ptr) (w : World) :
    (let h := v.handle w.trace ⟨.TpuStream_New, [.ptr w.executor_]⟩
     let w1 := (GetStreamImplementation v ptr w).1
     (GetStreamImplementation v ptr w).2 = .ok (ptr, ⟨h⟩) ∧
     w1.trace = w.trace ++ [.vendor ⟨.TpuStream_New, [.ptr w.executor_]⟩ (.handle h)] ∧
     w1.stream_map.at_ ptr = some h ∧
     (∀ q, q ≠ ptr → w1.stream_map.at_ q = w.stream_map.at_ q) ∧
     w1.timer_map_ = w.timer_map_ ∧ w1.event_map = w.event_map ∧
     (∀ stream : Stream, stream.implementation = ptr →
       (BlockHostUntilDone v stream w1).1.trace = w1.trace ++
         [.vendor ⟨.TpuExecutor_BlockHostUntilDone, [.ptr w.executor_, .ptr h]⟩
           (.status (v.status w1.trace
             ⟨.TpuExecutor_BlockHostUntilDone, [.ptr w.executor_, .ptr h]⟩))] ∧
       (GetStatus v stream w1).1.trace = w1.trace ++
         [.vendor ⟨.TpuExecutor_GetStatus, [.ptr w.executor_, .ptr h]⟩
           (.status (v.status w1.trace ⟨.TpuExecutor_GetStatus, [.ptr w.executor_, .ptr h]⟩))] ∧
       (AllocateStream v stream w1).1.trace = w1.trace ++
         [.vendor ⟨.TpuExecutor_AllocateStream, [.ptr w.executor_, .ptr h]⟩
           (.bool (v.bool w1.trace
             ⟨.TpuExecutor_AllocateStream, [.ptr w.executor_, .ptr h]⟩))] ∧
       (DeallocateStream v stream w1).1.trace = w1.trace ++
         [.vendor ⟨.TpuExecutor_DeallocateStream, [.ptr w.executor_, .ptr h]⟩ .unit] ∧
       (∀ (host_dst : Ptr) (device_src : DeviceMemoryBase) (size : Nat),
         let c : Call := ⟨.TpuExecutor_MemcpyToHost, [.ptr w.executor_, .ptr h, .ptr host_dst,
           .mem (DeviceMemoryBaseToSE_DeviceMemoryBase device_src), .int size]⟩
         (MemcpyToHost v stream host_dst device_src size w1).1.trace =
           w1.trace ++ [.vendor c (.bool (v.bool w1.trace c))]) ∧
       (∀ (device_dst : DeviceMemoryBase) (host_src : Ptr) (size : Nat),
         let c : Call := ⟨.TpuExecutor_MemcpyFromHost, [.ptr w.executor_, .ptr h,
           .mem (DeviceMemoryBaseToSE_DeviceMemoryBase device_dst), .ptr host_src, .int size]⟩
         (MemcpyFromHost v stream device_dst host_src size w1).1.trace =
           w1.trace ++ [.vendor c (.bool (v.bool w1.trace c))]) ∧
       (∀ (callback : Unit → Status) (ctx : Ptr),
         let c : Call :=
           ⟨.TpuExecutor_HostCallback, [.ptr w.executor_, .ptr h, .trampoline, .ptr ctx]⟩
         (HostCallback v stream callback ctx w1).1.trace =
           w1.trace ++ [.vendor c (.bool (v.bool w1.trace c))]) ∧
       (∀ (timer : Timer) (ht : Ptr), w1.timer_map_.at_ timer.implementation = some ht →
         (let c : Call := ⟨.TpuExecutor_StartTimer, [.ptr w.executor_, .ptr h, .ptr ht]⟩
          (StartTimer v stream timer w1).1.trace =
            w1.trace ++ [.vendor c (.bool (v.bool w1.trace c))]) ∧
         (let c : Call := ⟨.TpuExecutor_StopTimer, [.ptr w.executor_, .ptr h, .ptr ht]⟩
          (StopTimer v stream timer w1).1.trace =
            w1.trace ++ [.vendor c (.bool (v.bool w1.trace c))])) ∧
       (∀ (event : Event) (he : Ptr), w1.event_map.at_ event.implementation = some he →
         (let c : Call := ⟨.TpuExecutor_RecordEvent, [.ptr w.executor_, .ptr h, .ptr he]⟩
          (RecordEvent v stream event w1).1.trace =
            w1.trace ++ [.vendor c (.status (v.status w1.trace c))]) ∧
         (let c : Call := ⟨.TpuExecutor_WaitForEvent, [.ptr w.executor_, .ptr h, .ptr he]⟩
          (WaitForEvent v stream event w1).1.trace =
            w1.trace ++ [.vendor c (.status (v.status w1.trace c))])) ∧
       (∀ (other : Stream) (ho : Ptr), w1.stream_map.at_ other.implementation = some ho →
         (let c : Call :=
            ⟨.TpuExecutor_CreateStreamDependency, [.ptr w.executor_, .ptr h, .ptr ho]⟩
          (CreateStreamDependency v stream other w1).1.trace =
            w1.trace ++ [.vendor c (.bool (v.bool w1.trace c))]) ∧
         (let c : Call :=
            ⟨.TpuExecutor_CreateStreamDependency, [.ptr w.executor_, .ptr ho, .ptr h]⟩
          (CreateStreamDependency v other stream w1).1.trace =
            w1.trace ++ [.vendor c (.bool (v.bool w1.trace c))])))) ∧
    (let h := v.handle w.trace ⟨.TpuTimer_New, [.ptr w.executor_]⟩
     let w1 := (GetTimerImplementation v ptr w).1
     (GetTimerImplementation v ptr w).2 = .ok (ptr, ⟨h⟩) ∧
     w1.trace = w.trace ++ [.vendor ⟨.TpuTimer_New, [.ptr w.executor_]⟩ (.handle h)] ∧
     w1.timer_map_.at_ ptr = some h ∧
     (∀ q, q ≠ ptr → w1.timer_map_.at_ q = w.timer_map_.at_ q) ∧
     w1.stream_map = w.stream_map ∧ w1.event_map = w.event_map) ∧
    (let h := v.handle w.trace ⟨.TpuEvent_New, [.ptr w.executor_]⟩
     let w1 := (CreateEventImplementation v ptr w).1
     (CreateEventImplementation v ptr w).2 = .ok (ptr, ⟨h⟩) ∧
     w1.trace = w.trace ++ [.vendor ⟨.TpuEvent_New, [.ptr w.executor_]⟩ (.handle h)] ∧
     w1.event_map.at_ ptr = some h ∧
     (∀ q, q ≠ ptr → w1.event_map.at_ q = w.event_map.at_ q) ∧
     w1.stream_map = w.stream_map ∧ w1.timer_map_ = w.timer_map_) := by
  refine ⟨⟨rfl, rfl, ?_, ?_, rfl, rfl, ?_⟩, ⟨rfl, rfl, ?_, ?_, rfl, rfl⟩,
    ⟨rfl, rfl, ?_, ?_, rfl, rfl⟩⟩
  · simp [GetStreamImplementation, callHandle, Table.at_, Table.set]
  · intro q hq
    simp [GetStreamImplementation, callHandle, World.log, Table.at_, Table.set, Function.update_noteq hq]
  · rintro ⟨p⟩ rfl
    have hat : (GetStreamImplementation v p w).1.stream_map.at_ p =
        some (v.handle w.trace ⟨.TpuStream_New, [.ptr w.executor_]⟩) := by
      simp [GetStreamImplementation, callHandle, Table.at_, Table.set]
    have hexec : (GetStreamImplementation v p w).1.executor_ = w.executor_ := rfl
    refine ⟨?_, ?_, ?_, ?_, ?_, ?_, ?_, ?_, ?_, ?_⟩
    · simp [BlockHostUntilDone, atStream, hat, hexec, callStatus, World.log]
    · simp [GetStatus, atStream, hat, hexec, callStatus, World.log]
    · simp [AllocateStream, atStream, hat, hexec, callBool, World.log]
    · simp [DeallocateStream, atStream, hat, hexec, callUnit, World.log]
    · intro host_dst device_src size
      simp [MemcpyToHost, atStream, hat, hexec, callBool, World.log]
    · intro device_dst host_src size
      simp [MemcpyFromHost, atStream, hat, hexec, callBool, World.log]
    · intro callback ctx
      simp [HostCallback, atStream, hat, hexec, callBool, World.log]
    · intro timer ht hht
      simp [StartTimer, StopTimer, atStream, atTimer, hat, hht, hexec, callBool, World.log]
    · intro event he hhe
      simp [RecordEvent, WaitForEvent, atStream, atEvent, hat, hhe, hexec, callStatus, World.log]
    · intro other ho hho
      simp [CreateStreamDependency, atStream, hat, hho, hexec, callBool, World.log]
  · simp [GetTimerImplementation, callHandle, Table.at_, Table.set]
  · intro q hq
    simp [GetTimerImplementation, callHandle, World.log, Table.at_, Table.set, Function.update_noteq hq]
  · simp [CreateEventImplementation, callHandle, Table.at_, Table.set]
  · intro q hq
    simp [CreateEventImplementation, callHandle, World.log, Table.at_, Table.set, Function.update_noteq hq]

/-- C6, at a concrete state: a stream implementation allocated at `20` is registered with the
handle `1000`, the entry of the implementation `10` stays, `GetStatus` passes `1000`, and
`CreateStreamDependency` of the new stream on the stream `10` passes `1000` and `110`. -/
theorem registration_round_trip_witness :
    (GetStreamImplementation exampleVendor 20 exampleWorld).1.stream_map.at_ 10 =
      exampleWorld.stream_map.at_ 10 ∧
    (GetStatus exampleVendor ⟨20⟩ (GetStreamImplementation exampleVendor 20 exampleWorld).1).1.trace =
      (GetStreamImplementation exampleVendor 20 exampleWorld).1.trace ++
        [.vendor ⟨.TpuExecutor_GetStatus, [.ptr 1, .ptr 1000]⟩
          (.status (exampleVendor.status
            (GetStreamImplementation exampleVendor 20 exampleWorld).1.trace
            ⟨.TpuExecutor_GetStatus, [.ptr 1, .ptr 1000]⟩))] ∧
    (CreateStreamDependency exampleVendor ⟨20⟩ ⟨10⟩
        (GetStreamImplementation exampleVendor 20 exampleWorld).1).1.trace =
      (GetStreamImplementation exampleVendor 20 exampleWorld).1.trace ++
        [.vendor ⟨.TpuExecutor_CreateStreamDependency, [.ptr 1, .ptr 1000, .ptr 110]⟩
          (.bool (exampleVendor.bool
            (GetStreamImplementation exampleVendor 20 exampleWorld).1.trace
            ⟨.TpuExecutor_CreateStreamDependency, [.ptr 1, .ptr 1000, .ptr 110]⟩))] :=
  ⟨(registration_round_trip exampleVendor 20 exampleWorld).1.2.2.2.1 10 (by decide),
   ((registration_round_trip exampleVendor 20 exampleWorld).1.2.2.2.2.2.2 ⟨20⟩ rfl).2.1,
   (((registration_round_trip exampleVendor 20 exampleWorld).1.2.2.2.2.2.2 ⟨20⟩
      rfl).2.2.2.2.2.2.2.2.2 ⟨10⟩ 110 rfl).1⟩

/-- C8. `GetAllocatorStats` marshals the vendor statistics field by field: the result is empty
iff the vendor call returns `false`; when it returns `true` with record `c`, the seven plain
fields of the result equal the same-named fields of `c`, `bytes_limit` is present with value
`c.bytes_limit` iff `c.has_bytes_limit` is set and `bytes_reservable_limit` is present with
value `c.bytes_reservable_limit` iff `c.has_bytes_reservable_limit` is set, each otherwise
keeping the default of a freshly constructed `AllocatorStats`. -/
theorem GetAllocatorStats_marshals (v : Vendor) (w : World) :
    let call : Call := ⟨.TpuExecutor_GetAllocatorStats, [.ptr w.executor_]⟩
    let c := v.allocatorStats w.trace call
    ((GetAllocatorStats v w).2 = .ok none ↔ v.bool w.trace call = false) ∧
    (GetAllocatorStats v w).1.trace =
      w.trace ++ [.vendor call (.allocatorStats (v.bool w.trace call) c)] ∧
    (v.bool w.trace call = true →
      ∃ stats, (GetAllocatorStats v w).2 = .ok (some stats) ∧
        stats.num_allocs = c.num_allocs ∧ stats.bytes_in_use = c.bytes_in_use ∧
        stats.peak_bytes_in_use = c.peak_bytes_in_use ∧
        stats.largest_alloc_size = c.largest_alloc_size ∧
        stats.bytes_reserved = c.bytes_reserved ∧
        stats.peak_bytes_reserved = c.peak_bytes_reserved ∧
        stats.largest_free_block_bytes = c.largest_free_block_bytes ∧
        (stats.bytes_limit = some c.bytes_limit ↔ c.has_bytes_limit = true) ∧
        (stats.bytes_limit.isSome = true ↔ c.has_bytes_limit = true) ∧
        (c.has_bytes_limit = false → stats.bytes_limit = AllocatorStats.fresh.bytes_limit) ∧
        (stats.bytes_reservable_limit = some c.bytes_reservable_limit ↔
          c.has_bytes_reservable_limit = true) ∧
        (stats.bytes_reservable_limit.isSome = true ↔ c.has_bytes_reservable_limit = true) ∧
        (c.has_bytes_reservable_limit = false →
          stats.bytes_reservable_limit = AllocatorStats.fresh.bytes_reservable_limit)) := by
  intro call c
  refine ⟨?_, ?_, ?_⟩
  · cases hb : v.bool w.trace call <;> simp [GetAllocatorStats, call, hb]
  · cases hb : v.bool w.trace call <;> simp [GetAllocatorStats, call, c, hb, World.log]
  · intro hb
    cases h1 : c.has_bytes_limit <;> cases h2 : c.has_bytes_reservable_limit <;>
      simp [GetAllocatorStats, call, c, hb, AllocatorStats.fresh] at * <;>
      simp [h1, h2]

/-- C8, at a concrete runtime whose statistics have a byte limit and no reservable limit. -/
theorem GetAllocatorStats_marshals_witness :
    ∃ stats, (GetAllocatorStats exampleVendor exampleWorld).2 = .ok (some stats) ∧
      stats.num_allocs = 1 ∧ stats.bytes_limit = some 5 ∧ stats.bytes_reservable_limit = none := by
  obtain ⟨stats, h, h1, _, _, _, _, _, _, h2, _, _, _, _, h3⟩ :=
    (GetAllocatorStats_marshals exampleVendor exampleWorld).2.2 rfl
  exact ⟨stats, h, h1, h2.2 rfl, h3 rfl⟩

/-- A message without an embedded NUL is its own C string. -/
theorem c_str_of_no_NUL (s : String) (h : ∀ c ∈ s.data, c ≠ NUL) : c_str s = s := by
  cases s with
  | mk data =>
    simp only [c_str]
    congr 1
    exact List.takeWhile_eq_self_iff.2 (fun c hc => by simpa using h c hc)

/-- C9, as stated, fails: a callback whose `Status` has the message `a`, NUL, `b` is registered
on the stream `10` with its context at `50`; the trampoline then creates the vendor status from
the C string `a`, not from the whole message. -/
theorem HostCallbackTrampoline_cuts_message_at_NUL :
    ¬ TrampolineTranslates exampleVendor (fun _ => statusWithNUL) 50
      (HostCallback exampleVendor ⟨10⟩ (fun _ => statusWithNUL) 50 exampleWorld).1 := by
  rintro ⟨c_status, _, hmem⟩
  simp [HostCallbackTrampoline, HostCallback, atStream, exampleWorld, Table.at_, callBool,
    callHandle, World.log] at hmem
  exact absurd hmem.1 (by decide)

/-- C9, amended. Host-callback status translation. `HostCallback` on a registered stream stores
the callback `f` in a new context and hands the trampoline and that context to the runtime.
When the runtime then invokes `HostCallbackTrampoline` on a live context that holds `f`, the
trampoline runs `f` exactly once, returns the vendor status that `TpuStatus_Create` made from
exactly the code of the `Status` that `f` returned and the C string of its message (the message
up to its first NUL: the whole message when it has no NUL; code `0` and the empty message for
an OK result), and deletes the context exactly once, after `f` has run, whatever `f`
returned. -/
theorem HostCallbackTrampoline_translates (v : Vendor) (stream : Stream) (f : Unit → Status)
    (ctx h : Ptr) (w w2 : World) (hreg : w.stream_map.at_ stream.implementation = some h)
    (hlive : w2.contexts ctx = some ⟨f⟩) :
    ((HostCallback v stream f ctx w).1.contexts ctx = some ⟨f⟩ ∧
      (HostCallback v stream f ctx w).1.trace = w.trace ++
        [.vendor ⟨.TpuExecutor_HostCallback, [.ptr w.executor_, .ptr h, .trampoline, .ptr ctx]⟩
          (.bool (v.bool w.trace
            ⟨.TpuExecutor_HostCallback, [.ptr w.executor_, .ptr h, .trampoline, .ptr ctx]⟩))]) ∧
    (let create : Call :=
       ⟨.TpuStatus_Create, [.int (f ()).code, .str (c_str (f ()).error_message)]⟩
     let c_status := v.handle (w2.trace ++ [.callback ctx (f ())]) create
     (HostCallbackTrampoline v ctx w2).2 = .ok c_status ∧
     (HostCallbackTrampoline v ctx w2).1.trace = w2.trace ++
       [.callback ctx (f ()), .vendor create (.handle c_status), .delete ctx] ∧
     (HostCallbackTrampoline v ctx w2).1.contexts ctx = none ∧
     (∀ q, q ≠ ctx → (HostCallbackTrampoline v ctx w2).1.contexts q = w2.contexts q) ∧
     ((∀ c ∈ (f ()).error_message.data, c ≠ NUL) →
       create = ⟨.TpuStatus_Create, [.int (f ()).code, .str (f ()).error_message]⟩ ∧
       TrampolineTranslates v f ctx w2) ∧
     (f () = Status.OK → create = ⟨.TpuStatus_Create, [.int 0, .str ""]⟩)) := by
  refine ⟨⟨?_, ?_⟩, ?_, ?_, ?_, ?_, ?_, ?_⟩
  · simp [HostCallback, atStream, hreg, callBool, World.log]
  · simp [HostCallback, atStream, hreg, callBool, World.log]
  · simp [HostCallbackTrampoline, hlive, callHandle, World.log]
  · simp [HostCallbackTrampoline, hlive, callHandle, World.log]
  · simp [HostCallbackTrampoline, hlive, callHandle, World.log]
  · intro q hq
    simp [HostCallbackTrampoline, hlive, callHandle, World.log, Function.update_noteq hq]
  · intro hno
    have hc := c_str_of_no_NUL (f ()).error_message hno
    refine ⟨by rw [hc], ?_⟩
    refine ⟨v.handle (w2.trace ++ [.callback ctx (f ())])
      ⟨.TpuStatus_Create, [.int (f ()).code, .str (f ()).error_message]⟩, ?_, ?_⟩
    · simp [HostCallbackTrampoline, hlive, callHandle, World.log, hc]
    · simp [HostCallbackTrampoline, hlive, callHandle, World.log, hc]
  · intro hf
    rw [hf]
    decide

/-- C9, amended, at a concrete state: a failing callback registered on the stream `10` with its
context at `50`, then the trampoline on the state that `HostCallback` left. -/
theorem HostCallbackTrampoline_translates_witness :
    (HostCallbackTrampoline exampleVendor 50
        (HostCallback exampleVendor ⟨10⟩ (fun _ => ⟨3, "bad"⟩) 50 exampleWorld).1).1.trace =
      (HostCallback exampleVendor ⟨10⟩ (fun _ => ⟨3, "bad"⟩) 50 exampleWorld).1.trace ++
        [.callback 50 ⟨3, "bad"⟩,
         .vendor ⟨.TpuStatus_Create, [.int 3, .str (c_str "bad")]⟩
           (.handle (exampleVendor.handle
             ((HostCallback exampleVendor ⟨10⟩ (fun _ => ⟨3, "bad"⟩) 50 exampleWorld).1.trace ++
               [.callback 50 ⟨3, "bad"⟩])
             ⟨.TpuStatus_Create, [.int 3, .str (c_str "bad")]⟩)),
         .delete 50] ∧
    c_str "bad" = "bad" :=
  ⟨(HostCallbackTrampoline_translates exampleVendor ⟨10⟩ (fun _ => ⟨3, "bad"⟩) 50 110
    exampleWorld (HostCallback exampleVendor ⟨10⟩ (fun _ => ⟨3, "bad"⟩) 50 exampleWorld).1 rfl
    (by simp [HostCallback, atStream, exampleWorld, Table.at_, callBool, World.log])).2.2.1,
   by decide⟩

/-- C10. `CreateDeviceDescription` returns a value iff the vendor call reports OK. With an OK
vendor status and a non-null `device_vendor` the result is a description whose
`device_vendor`, `name`, `clock_rate_ghz`, `core_count`, `ecc_enabled`, `device_memory_size`
and `platform_version` are the ones the vendor filled in; with a non-OK vendor status the
result is that error status (same code and message) and no description. On both paths the
vendor description object that `TpuDeviceDescription_New` returned is freed exactly once. -/
theorem CreateDeviceDescription_value_iff_ok (v : Vendor) (w : World) :
    let new : Call := ⟨.TpuDeviceDescription_New, []⟩
    let description := v.handle w.trace new
    let create : Call :=
      ⟨.TpuExecutor_CreateDeviceDescription, [.ptr w.executor_, .ptr description]⟩
    let w1 := w.log (.vendor new (.handle description))
    let status := v.status w1.trace create
    let d := v.description w1.trace create
    (∀ device_vendor, status.code = 0 → d.device_vendor = some device_vendor →
      (CreateDeviceDescription v w).2 = .ok (.ok
        ⟨device_vendor, d.name, d.clock_rate_ghz, d.core_count, d.ecc_enabled,
          d.device_memory_size, d.platform_version⟩) ∧
      (CreateDeviceDescription v w).1.trace = w.trace ++
        [.vendor new (.handle description), .vendor create (.description status d),
         .vendor ⟨.TpuDeviceDescription_Free, [.ptr description]⟩ .unit]) ∧
    (status.code ≠ 0 →
      (CreateDeviceDescription v w).2 = .ok (.error ⟨status.code, status.message⟩) ∧
      (CreateDeviceDescription v w).1.trace = w.trace ++
        [.vendor new (.handle description), .vendor create (.description status d),
         .vendor ⟨.TpuDeviceDescription_Free, [.ptr description]⟩ .unit]) ∧
    ((∃ value, (CreateDeviceDescription v w).2 = .ok (.ok value)) → status.code = 0) := by
  intro new description create w1 status d
  refine ⟨?_, ?_, ?_⟩
  · intro device_vendor hs hd
    have hs1 : (v.status (w.trace ++ [.vendor new (.handle description)]) create).code = 0 := hs
    have hd1 : (v.description (w.trace ++ [.vendor new (.handle description)])
        create).device_vendor = some device_vendor := hd
    simp [CreateDeviceDescription, callHandle, callUnit, World.log, StatusHelper.status,
      Status.ok, Status.OK, new, description, create, w1, status, d] at hs1 hd1 ⊢
    simp [hs1, hd1]
  · intro hs
    have hs1 : (v.status (w.trace ++ [.vendor new (.handle description)]) create).code ≠ 0 := hs
    simp [CreateDeviceDescription, callHandle, callUnit, World.log, StatusHelper.status,
      Status.ok, Status.OK, new, description, create, w1, status, d] at hs1 ⊢
    simp [hs1]
  · rintro ⟨value, hv⟩
    by_contra hs
    have hs1 : (v.status (w.trace ++ [.vendor new (.handle description)]) create).code ≠ 0 := hs
    simp [CreateDeviceDescription, callHandle, callUnit, World.log, StatusHelper.status,
      Status.ok, Status.OK, new, description, create, w1, status, d] at hs1 hv
    simp [hs1] at hv

/-- C10, at two concrete runtimes: one that reports OK and one that reports an error. -/
theorem CreateDeviceDescription_value_iff_ok_witness :
    (CreateDeviceDescription exampleVendor exampleWorld).2 =
      .ok (.ok ⟨"Google", "TPU", 940, 2, true, 16, "v3"⟩) ∧
    (CreateDeviceDescription failingVendor exampleWorld).2 = .ok (.error ⟨13, "device lost"⟩) :=
  ⟨((CreateDeviceDescription_value_iff_ok exampleVendor exampleWorld).1 "Google" (by decide)
      rfl).1,
   ((CreateDeviceDescription_value_iff_ok failingVendor exampleWorld).2.1 (by decide)).1⟩

end TpuExecutor

open TpuExecutor

/-- The actions added by a method that leaves the state as it found it: none. -/
theorem newActions_same (w : World) (r : Except Fault Ret) : newActions w (w, r) = [] := by
  simp [newActions]

/-- C3, as stated, fails: `AllocateEvent` is not a forward to the C API. On the example state it
returns without any call of the C API. -/
theorem AllocateEvent_not_forwarded :
    ¬ ForwardsToVendor exampleVendor (.AllocateEvent ⟨30⟩) exampleWorld := by
  rintro ⟨ret, c, r, _, hmem, _⟩
  have h : newActions exampleWorld (run exampleVendor (.AllocateEvent ⟨30⟩) exampleWorld) = [] :=
    newActions_same exampleWorld _
  rw [h] at hmem
  exact absurd hmem (List.not_mem_nil _)

/-- C3, amended. Every method of the facade other than `AllocateEvent`, `DeallocateEvent`,
`AllocateTimer`, `DeallocateTimer`, `SynchronousMemcpyDeviceToDevice` and
`MemcpyDeviceToDevice`, on every input whose handles are registered (and, for
`CreateDeviceDescription`, whose `CHECK` passes), returns, makes a call of its corresponding
function of the C API, and its result is the wrapped reply of that call. Those six methods make
no call of the C API and leave the state unchanged: `AllocateEvent` and `DeallocateEvent` return
`OK`, `AllocateTimer` returns `true`, `DeallocateTimer` returns nothing,
`SynchronousMemcpyDeviceToDevice` returns an `UNIMPLEMENTED` status and `MemcpyDeviceToDevice`
ends in `LOG(FATAL)`. -/
theorem facade_forwards_except_six (v : Vendor) (m : Method) (w : World) :
    (∀ fn, m.forwardsTo = some fn → m.ready v w = true →
      ∃ ret c r, (run v m w).2 = .ok ret ∧ Action.vendor c r ∈ newActions w (run v m w) ∧
        c.fn = fn ∧ ret = wrapReply m r) ∧
    (m.forwardsTo = none →
      (run v m w).1 = w ∧ newActions w (run v m w) = [] ∧ ¬ ForwardsToVendor v m w ∧
      ((∃ event, m = .AllocateEvent event ∧ (run v m w).2 = .ok (.status Status.OK)) ∨
       (∃ event, m = .DeallocateEvent event ∧ (run v m w).2 = .ok (.status Status.OK)) ∨
       (∃ timer, m = .AllocateTimer timer ∧ (run v m w).2 = .ok (.bool true)) ∨
       (∃ timer, m = .DeallocateTimer timer ∧ (run v m w).2 = .ok .unit) ∨
       (∃ dst src size, m = .SynchronousMemcpyDeviceToDevice dst src size ∧
          (run v m w).2 =
            .ok (.status (UnimplementedError "This operation not supported on TPU"))) ∨
       (∃ stream dst src size, m = .MemcpyDeviceToDevice stream dst src size ∧
          (run v m w).2 = .error .LOG_FATAL))) := by
  constructor
  · intro fn hfn hready
    cases m <;> simp only [Method.forwardsTo, Option.some.injEq, reduceCtorEq] at hfn <;> subst hfn
    case Init device_ordinal flags =>
      simp [run, returning, newActions, Init, callStatus, callHandle, callUnit, World.log]
      exact ⟨_, _, Or.inr (Or.inl ⟨rfl, rfl⟩), rfl, rfl⟩
    case DequeueOutfeed i data size =>
      simp [run, returning, newActions, DequeueOutfeed, callStatus, World.log]
      exact ⟨_, _, ⟨rfl, rfl⟩, rfl, rfl⟩
    case DeviceMemoryUsage =>
      cases hb : v.bool w.trace ⟨.TpuExecutor_DeviceMemoryUsage, [.ptr w.executor_]⟩ <;>
        simp [run, returning, newActions, DeviceMemoryUsage, World.log, hb] <;>
        exact ⟨_, _, ⟨rfl, rfl⟩, rfl, by simp [wrapReply, wrapPlain]⟩
    case GetAllocatorStats =>
      cases hb : v.bool w.trace ⟨.TpuExecutor_GetAllocatorStats, [.ptr w.executor_]⟩
      · simp [run, returning, newActions, GetAllocatorStats, World.log, hb]
        exact ⟨_, _, ⟨rfl, rfl⟩, rfl, by simp [wrapReply, wrapPlain]⟩
      · simp only [run, returning, newActions, GetAllocatorStats, World.log, hb, if_true]
        refine ⟨_, _, _, rfl, by simp; exact ⟨rfl, rfl⟩, rfl, ?_⟩
        cases h1 : (v.allocatorStats w.trace
            ⟨.TpuExecutor_GetAllocatorStats, [.ptr w.executor_]⟩).has_bytes_limit <;>
        cases h2 : (v.allocatorStats w.trace
            ⟨.TpuExecutor_GetAllocatorStats, [.ptr w.executor_]⟩).has_bytes_reservable_limit <;>
          simp [wrapReply, wrapPlain, marshalAllocatorStats, AllocatorStats.fresh, h1, h2]
    case CreateDeviceDescription =>
      simp only [Method.ready, deviceVendorChecked, World.log, Bool.or_eq_true, bne_iff_ne, ne_eq,
        Option.isSome_iff_exists] at hready
      by_cases hs : (v.status (w.trace ++ [.vendor ⟨.TpuDeviceDescription_New, []⟩
          (.handle (v.handle w.trace ⟨.TpuDeviceDescription_New, []⟩))])
          ⟨.TpuExecutor_CreateDeviceDescription,
            [.ptr w.executor_, .ptr (v.handle w.trace ⟨.TpuDeviceDescription_New, []⟩)]⟩).code = 0
      · obtain ⟨dv, hdv⟩ := hready.resolve_left (not_not.2 hs)
        simp [run, returning, newActions, CreateDeviceDescription, callHandle, callUnit, World.log,
          StatusHelper.status, Status.ok, Status.OK, hs, hdv]
        refine ⟨_, _, Or.inr (Or.inl ⟨rfl, rfl⟩), rfl, ?_⟩
        simp [wrapReply, wrapPlain, hs, hdv]
      · simp [run, returning, newActions, CreateDeviceDescription, callHandle, callUnit, World.log,
          StatusHelper.status, Status.ok, Status.OK, hs]
        refine ⟨_, _, Or.inr (Or.inl ⟨rfl, rfl⟩), rfl, ?_⟩
        simp [wrapReply, wrapPlain, StatusHelper.status, hs]
    all_goals (try simp only [Method.ready, Bool.and_eq_true, Option.isSome_iff_exists] at hready)
    all_goals first
      | (obtain ⟨⟨h1, hh1⟩, ⟨h2, hh2⟩⟩ := hready
         simp [run, returning, newActions, CreateStreamDependency, StartTimer, StopTimer,
           RecordEvent, WaitForEvent, atStream, atTimer, atEvent, callStatus, callBool,
           World.log, hh1, hh2]
         exact ⟨_, _, ⟨rfl, rfl⟩, rfl, rfl⟩)
      | (obtain ⟨h1, hh1⟩ := hready
         simp [run, returning, newActions, BlockHostUntilDone, GetStatus, AllocateStream,
           DeallocateStream, PollForEventStatus, MemcpyToHost, MemcpyFromHost, HostCallback,
           atStream, atTimer, atEvent, callStatus, callBool, callInt, callUnit, World.log, hh1]
         exact ⟨_, _, ⟨rfl, rfl⟩, rfl, rfl⟩)
      | (simp [run, returning, newActions, destructor, PlatformDeviceCount,
           SyncAndForgetFailedStreams, SynchronizeAllActivity, BlockUntilDoneOrFailed,
           GetTimerImplementation, GetStreamImplementation, CreateEventImplementation, Allocate,
           Deallocate, DeallocatePtr, WaitForInfeedReady, WaitForOutfeedReady, EnqueueInfeed,
           SynchronousMemcpyFromHost, SynchronousMemcpyToHost, callStatus, callBool, callInt,
           callUnit, callHandle, World.log]
         exact ⟨_, _, ⟨rfl, rfl⟩, rfl, rfl⟩)
  · intro hnone
    have hsame : ∀ r : Except Fault Ret, run v m w = (w, r) →
        (run v m w).1 = w ∧ newActions w (run v m w) = [] ∧ ¬ ForwardsToVendor v m w := by
      intro r hr
      refine ⟨by rw [hr], by rw [hr]; exact newActions_same w r, ?_⟩
      rintro ⟨ret, c, a, _, hmem, _⟩
      rw [hr, newActions_same] at hmem
      exact absurd hmem (List.not_mem_nil _)
    cases m <;> simp only [Method.forwardsTo, reduceCtorEq] at hnone
    case AllocateEvent event =>
      obtain ⟨h1, h2, h3⟩ := hsame (.ok (.status Status.OK)) rfl
      exact ⟨h1, h2, h3, Or.inl ⟨event, rfl, rfl⟩⟩
    case DeallocateEvent event =>
      obtain ⟨h1, h2, h3⟩ := hsame (.ok (.status Status.OK)) rfl
      exact ⟨h1, h2, h3, Or.inr (Or.inl ⟨event, rfl, rfl⟩)⟩
    case AllocateTimer timer =>
      obtain ⟨h1, h2, h3⟩ := hsame (.ok (.bool true)) rfl
      exact ⟨h1, h2, h3, Or.inr (Or.inr (Or.inl ⟨timer, rfl, rfl⟩))⟩
    case DeallocateTimer timer =>
      obtain ⟨h1, h2, h3⟩ := hsame (.ok .unit) rfl
      exact ⟨h1, h2, h3, Or.inr (Or.inr (Or.inr (Or.inl ⟨timer, rfl, rfl⟩)))⟩
    case SynchronousMemcpyDeviceToDevice dst src size =>
      obtain ⟨h1, h2, h3⟩ :=
        hsame (.ok (.status (UnimplementedError "This operation not supported on TPU"))) rfl
      exact ⟨h1, h2, h3, Or.inr (Or.inr (Or.inr (Or.inr (Or.inl ⟨dst, src, size, rfl, rfl⟩))))⟩
    case MemcpyDeviceToDevice stream dst src size =>
      obtain ⟨h1, h2, h3⟩ := hsame (.error .LOG_FATAL) rfl
      exact ⟨h1, h2, h3,
        Or.inr (Or.inr (Or.inr (Or.inr (Or.inr ⟨stream, dst, src, size, rfl, rfl⟩))))⟩

/-- C3, amended, at a concrete state: `GetStatus` on the registered stream `10` forwards to
`TpuExecutor_GetStatus`, and `AllocateEvent` leaves the state unchanged. -/
theorem facade_forwards_except_six_witness :
    (∃ ret c r, (run exampleVendor (.GetStatus ⟨10⟩) exampleWorld).2 = .ok ret ∧
      Action.vendor c r ∈
        newActions exampleWorld (run exampleVendor (.GetStatus ⟨10⟩) exampleWorld) ∧
      c.fn = .TpuExecutor_GetStatus ∧ ret = wrapReply (.GetStatus ⟨10⟩) r) ∧
    (run exampleVendor (.AllocateEvent ⟨30⟩) exampleWorld).1 = exampleWorld :=
  ⟨(facade_forwards_except_six exampleVendor (.GetStatus ⟨10⟩) exampleWorld).1
      .TpuExecutor_GetStatus rfl rfl,
   ((facade_forwards_except_six exampleVendor (.AllocateEvent ⟨30⟩) exampleWorld).2 rfl).1⟩

/-- The wrapped status is `OK` iff the vendor reported OK, and otherwise has the vendor's code
and message. -/
theorem StatusHelper.status_spec (s : SE_Status) :
    ((StatusHelper.status s).ok = true ↔ s.code = 0) ∧
    (s.code = 0 → StatusHelper.status s = Status.OK) ∧
    (s.code ≠ 0 → (StatusHelper.status s).code = s.code ∧
      (StatusHelper.status s).error_message = s.message) := by
  by_cases h : s.code = 0 <;> simp [StatusHelper.status, Status.ok, Status.OK, h]

/-- C4, as stated, fails: `SynchronousMemcpyDeviceToDevice` does not return a status written by
a vendor call. On the example state it makes no vendor call and returns an error of its own. -/
theorem SynchronousMemcpyDeviceToDevice_own_status :
    ¬ ReturnsVendorStatus exampleVendor
      (.SynchronousMemcpyDeviceToDevice ⟨64, 8, 0⟩ ⟨128, 8, 0⟩ 8) exampleWorld := by
  rintro ⟨s, hs, _⟩
  have h : newActions exampleWorld (run exampleVendor
      (.SynchronousMemcpyDeviceToDevice ⟨64, 8, 0⟩ ⟨128, 8, 0⟩ 8) exampleWorld) = [] :=
    newActions_same exampleWorld _
  rw [h] at hs
  simp [writtenStatuses] at hs

/-- C4, amended. For each of `Init`, `BlockHostUntilDone`, `BlockUntilDoneOrFailed`,
`GetStatus`, `RecordEvent`, `WaitForEvent`, `WaitForInfeedReady`, `WaitForOutfeedReady`,
`EnqueueInfeed` and both `SynchronousMemcpy` overloads, on every input whose stream and event
handles are registered, the method returns, exactly one of its vendor calls writes a status,
and the returned `Status` is that status wrapped: `OK` iff the vendor call reported OK, and
otherwise the same code and message. `SynchronousMemcpyDeviceToDevice` makes no vendor call and
returns the status `UNIMPLEMENTED`, "This operation not supported on TPU", of its own. -/
theorem status_methods_return_vendor_status (v : Vendor) (m : Method) (w : World) :
    (m.handsStatusToVendor = true → m.ready v w = true →
      ∃ s, writtenStatuses (newActions w (run v m w)) = [s] ∧
        (run v m w).2 = .ok (.status (StatusHelper.status s)) ∧
        ((StatusHelper.status s).ok = true ↔ s.code = 0) ∧
        (s.code = 0 → StatusHelper.status s = Status.OK) ∧
        (s.code ≠ 0 → (StatusHelper.status s).code = s.code ∧
          (StatusHelper.status s).error_message = s.message)) ∧
    (∀ dst src size, m = .SynchronousMemcpyDeviceToDevice dst src size →
      newActions w (run v m w) = [] ∧
      (run v m w).2 = .ok (.status ⟨error.UNIMPLEMENTED, "This operation not supported on TPU"⟩) ∧
      ¬ ReturnsVendorStatus v m w) := by
  constructor
  · intro hm hready
    have key : ReturnsVendorStatus v m w := by
      cases m <;> simp only [Method.handsStatusToVendor, Bool.false_eq_true] at hm
      all_goals
        (try simp only [Method.ready, Bool.and_eq_true, Option.isSome_iff_exists] at hready)
      all_goals first
        | (obtain ⟨⟨h1, hh1⟩, ⟨h2, hh2⟩⟩ := hready
           simp [ReturnsVendorStatus, run, returning, newActions, writtenStatuses, RecordEvent,
             WaitForEvent, atStream, atEvent, callStatus, World.log, hh1, hh2])
        | (obtain ⟨h1, hh1⟩ := hready
           simp [ReturnsVendorStatus, run, returning, newActions, writtenStatuses,
             BlockHostUntilDone, GetStatus, atStream, callStatus, World.log, hh1])
        | (simp [ReturnsVendorStatus, run, returning, newActions, writtenStatuses, Init,
             BlockUntilDoneOrFailed, WaitForInfeedReady, WaitForOutfeedReady, EnqueueInfeed,
             SynchronousMemcpyFromHost, SynchronousMemcpyToHost, callStatus, callHandle,
             callUnit, World.log])
    obtain ⟨s, h1, h2⟩ := key
    exact ⟨s, h1, h2, StatusHelper.status_spec s⟩
  · rintro dst src size rfl
    have h : newActions w (run v (.SynchronousMemcpyDeviceToDevice dst src size) w) = [] :=
      newActions_same w _
    refine ⟨h, rfl, ?_⟩
    rintro ⟨s, hs, _⟩
    rw [h] at hs
    simp [writtenStatuses] at hs

/-- C4, amended, at a concrete state: `GetStatus` on the registered stream `10` returns the
error the vendor wrote, and `SynchronousMemcpyDeviceToDevice` makes no vendor call. -/
theorem status_methods_return_vendor_status_witness :
    (∃ s, writtenStatuses
        (newActions exampleWorld (run exampleVendor (.GetStatus ⟨10⟩) exampleWorld)) = [s] ∧
      (run exampleVendor (.GetStatus ⟨10⟩) exampleWorld).2 =
        .ok (.status (StatusHelper.status s))) ∧
    newActions exampleWorld (run exampleVendor
      (.SynchronousMemcpyDeviceToDevice ⟨64, 8, 0⟩ ⟨128, 8, 0⟩ 8) exampleWorld) = [] :=
  ⟨match (status_methods_return_vendor_status exampleVendor (.GetStatus ⟨10⟩) exampleWorld).1
      rfl rfl with
    | ⟨s, h1, h2, _⟩ => ⟨s, h1, h2⟩,
   ((status_methods_return_vendor_status exampleVendor
      (.SynchronousMemcpyDeviceToDevice ⟨64, 8, 0⟩ ⟨128, 8, 0⟩ 8) exampleWorld).2
      ⟨64, 8, 0⟩ ⟨128, 8, 0⟩ 8 rfl).1⟩

/-- One method call changes the keys of the stream table the way `liveStep` changes the set of
live stream implementations. -/
theorem run_stream_map (v : Vendor) (m : Method) (w : World) (p : Ptr) :
    ((run v m w).1.stream_map.at_ p).isSome =
      liveStep (fun q => (w.stream_map.at_ q).isSome) m p := by
  cases m
  case GetStreamImplementation ptr =>
    by_cases hp : p = ptr <;>
      simp [run, returning, GetStreamImplementation, callHandle, World.log, liveStep, Table.at_,
        Table.set, Function.update_apply, hp]
  case DeallocateStream stream =>
    by_cases hp : p = stream.implementation <;>
    cases hs : w.stream_map stream.implementation <;>
      simp [run, returning, DeallocateStream, atStream, callUnit, World.log, liveStep, Table.at_,
        Table.erase, Function.update_apply, hp, hs]
  all_goals
    simp only [run, returning, liveStep, destructor, Init, PlatformDeviceCount,
      SyncAndForgetFailedStreams, SynchronizeAllActivity, BlockHostUntilDone,
      BlockUntilDoneOrFailed, GetStatus, AllocateStream, CreateStreamDependency, AllocateEvent,
      DeallocateEvent, AllocateTimer, DeallocateTimer, StartTimer, StopTimer, PollForEventStatus,
      RecordEvent, WaitForEvent, GetTimerImplementation, CreateEventImplementation, Allocate,
      Deallocate, DeallocatePtr, DeviceMemoryUsage, GetAllocatorStats, WaitForInfeedReady,
      WaitForOutfeedReady, DequeueOutfeed, EnqueueInfeed, MemcpyToHost, MemcpyFromHost,
      SynchronousMemcpyFromHost, SynchronousMemcpyToHost, SynchronousMemcpyDeviceToDevice,
      MemcpyDeviceToDevice, HostCallback, CreateDeviceDescription, atStream, atTimer, atEvent,
      callStatus, callBool, callInt, callUnit, callHandle, World.log]
  all_goals (repeat' split)
  all_goals rfl

/-- The keys of the stream table follow the set of live stream implementations along every
sequence of method calls. -/
theorem runAll_stream_map (v : Vendor) (ms : List Method) (w : World) (live : Ptr → Bool)
    (h : ∀ p, (w.stream_map.at_ p).isSome = live p) (p : Ptr) :
    ((runAll v ms w).stream_map.at_ p).isSome = liveAfter live ms p := by
  induction ms generalizing w live with
  | nil => exact h p
  | cons m ms ih =>
    simp only [runAll, liveAfter]
    apply ih
    intro q
    rw [run_stream_map]
    have hfun : (fun q => (w.stream_map.at_ q).isSome) = live := funext h
    rw [hfun]

/-- The live set after a sequence of method calls followed by one more. -/
theorem liveAfter_append (live : Ptr → Bool) (ms : List Method) (m : Method) :
    liveAfter live (ms ++ [m]) = liveStep (liveAfter live ms) m := by
  induction ms generalizing live with
  | nil => rfl
  | cons x ms ih => exact ih (liveStep live x)

/-- A stream operation whose streams are all registered, and whose timer or event is
registered, returns. -/
theorem stream_operation_returns (v : Vendor) (m : Method) (w : World)
    (hop : m.streams ≠ [])
    (hstreams : ∀ p ∈ m.streams, ∃ h, w.stream_map.at_ p = some h)
    (hothers : m.othersRegistered w = true) : ∃ ret, (run v m w).2 = .ok ret := by
  cases m
  case CreateStreamDependency dependent other =>
    obtain ⟨h1, hh1⟩ := hstreams dependent.implementation (by simp [Method.streams])
    obtain ⟨h2, hh2⟩ := hstreams other.implementation (by simp [Method.streams])
    simp [run, returning, CreateStreamDependency, atStream, callBool, hh1, hh2]
  case StartTimer stream timer =>
    obtain ⟨h1, hh1⟩ := hstreams stream.implementation (by simp [Method.streams])
    obtain ⟨h2, hh2⟩ := Option.isSome_iff_exists.1 hothers
    simp [run, returning, StartTimer, atStream, atTimer, callBool, hh1, hh2]
  case StopTimer stream timer =>
    obtain ⟨h1, hh1⟩ := hstreams stream.implementation (by simp [Method.streams])
    obtain ⟨h2, hh2⟩ := Option.isSome_iff_exists.1 hothers
    simp [run, returning, StopTimer, atStream, atTimer, callBool, hh1, hh2]
  case RecordEvent stream event =>
    obtain ⟨h1, hh1⟩ := hstreams stream.implementation (by simp [Method.streams])
    obtain ⟨h2, hh2⟩ := Option.isSome_iff_exists.1 hothers
    simp [run, returning, RecordEvent, atStream, atEvent, callStatus, hh1, hh2]
  case WaitForEvent stream event =>
    obtain ⟨h1, hh1⟩ := hstreams stream.implementation (by simp [Method.streams])
    obtain ⟨h2, hh2⟩ := Option.isSome_iff_exists.1 hothers
    simp [run, returning, WaitForEvent, atStream, atEvent, callStatus, hh1, hh2]
  case BlockHostUntilDone stream =>
    obtain ⟨h1, hh1⟩ := hstreams stream.implementation (by simp [Method.streams])
    simp [run, returning, BlockHostUntilDone, atStream, callStatus, hh1]
  case GetStatus stream =>
    obtain ⟨h1, hh1⟩ := hstreams stream.implementation (by simp [Method.streams])
    simp [run, returning, GetStatus, atStream, callStatus, hh1]
  case AllocateStream stream =>
    obtain ⟨h1, hh1⟩ := hstreams stream.implementation (by simp [Method.streams])
    simp [run, returning, AllocateStream, atStream, callBool, hh1]
  case DeallocateStream stream =>
    obtain ⟨h1, hh1⟩ := hstreams stream.implementation (by simp [Method.streams])
    simp [run, returning, DeallocateStream, atStream, callUnit, hh1]
  case MemcpyToHost stream host_dst device_src size =>
    obtain ⟨h1, hh1⟩ := hstreams stream.implementation (by simp [Method.streams])
    simp [run, returning, MemcpyToHost, atStream, callBool, hh1]
  case MemcpyFromHost stream device_dst host_src size =>
    obtain ⟨h1, hh1⟩ := hstreams stream.implementation (by simp [Method.streams])
    simp [run, returning, MemcpyFromHost, atStream, callBool, hh1]
  case HostCallback stream callback ctx =>
    obtain ⟨h1, hh1⟩ := hstreams stream.implementation (by simp [Method.streams])
    simp [run, returning, HostCallback, atStream, callBool, hh1]
  all_goals exact absurd rfl hop

/-- A stream operation on a stream whose implementation is not registered fails at the lookup
and makes no vendor call. -/
theorem stream_operation_faults (v : Vendor) (m : Method) (w : World) (p : Ptr)
    (hp : p ∈ m.streams) (hnone : w.stream_map.at_ p = none) :
    (run v m w).2 = .error .out_of_range ∧ newActions w (run v m w) = [] := by
  cases m <;> simp only [Method.streams, List.mem_cons, List.mem_singleton, List.not_mem_nil,
    or_false] at hp
  case CreateStreamDependency dependent other =>
    rcases hp with rfl | rfl
    · simp [run, returning, newActions, CreateStreamDependency, atStream, hnone]
    · cases hd : w.stream_map.at_ dependent.implementation <;>
        simp [run, returning, newActions, CreateStreamDependency, atStream, hnone, hd]
  all_goals
    subst hp
    simp [run, returning, newActions, BlockHostUntilDone, GetStatus, AllocateStream,
      DeallocateStream, StartTimer, StopTimer, RecordEvent, WaitForEvent, MemcpyToHost,
      MemcpyFromHost, HostCallback, atStream, hnone]

/-- C11. Live-stream lookup safety. In every state reached from a state with an empty stream
table by a sequence of method calls, the keys of the stream table are exactly the live
implementations: the ones returned by `GetStreamImplementation` and not since passed to
`DeallocateStream`. Hence in such a state every stream operation on live streams passes the
lookup in the stream table (and returns when the timer or event it also looks up is
registered), and every stream operation on a stream that is not live fails at the lookup
before any vendor call is made; in particular every stream operation on a stream right after
its `DeallocateStream` does. -/
theorem live_stream_lookup_safety (v : Vendor) (w0 : World)
    (h0 : ∀ p, w0.stream_map.at_ p = none) (ms : List Method) :
    (∀ p, (∃ h, (runAll v ms w0).stream_map.at_ p = some h) ↔
      liveAfter (fun _ => false) ms p = true) ∧
    (∀ ptr, liveAfter (fun _ => false) (ms ++ [.GetStreamImplementation ptr]) ptr = true) ∧
    (∀ stream, liveAfter (fun _ => false) (ms ++ [.DeallocateStream stream])
      stream.implementation = false) ∧
    (∀ m, m.streams ≠ [] → (∀ p ∈ m.streams, liveAfter (fun _ => false) ms p = true) →
      (∀ p ∈ m.streams, ∃ h, (runAll v ms w0).stream_map.at_ p = some h ∧
        ∀ k : Ptr → Result Ret, atStream (runAll v ms w0) ⟨p⟩ k = k h) ∧
      (m.othersRegistered (runAll v ms w0) = true →
        ∃ ret, (run v m (runAll v ms w0)).2 = .ok ret)) ∧
    (∀ m p, p ∈ m.streams → liveAfter (fun _ => false) ms p = false →
      (run v m (runAll v ms w0)).2 = .error .out_of_range ∧
      newActions (runAll v ms w0) (run v m (runAll v ms w0)) = []) ∧
    (∀ stream m, stream.implementation ∈ m.streams →
      (run v m (runAll v (ms ++ [.DeallocateStream stream]) w0)).2 = .error .out_of_range ∧
      newActions (runAll v (ms ++ [.DeallocateStream stream]) w0)
        (run v m (runAll v (ms ++ [.DeallocateStream stream]) w0)) = []) := by
  have hinv : ∀ p, ((runAll v ms w0).stream_map.at_ p).isSome = liveAfter (fun _ => false) ms p :=
    runAll_stream_map v ms w0 (fun _ => false) (fun p => by rw [h0 p]; rfl)
  have hkeys : ∀ p, (∃ h, (runAll v ms w0).stream_map.at_ p = some h) ↔
      liveAfter (fun _ => false) ms p = true := by
    intro p
    rw [← hinv p, Option.isSome_iff_exists]
  refine ⟨hkeys, ?_, ?_, ?_, ?_, ?_⟩
  rotate_left 4
  · intro stream m hp
    apply stream_operation_faults v m _ stream.implementation hp
    have hdead := runAll_stream_map v (ms ++ [.DeallocateStream stream]) w0 (fun _ => false)
      (fun p => by rw [h0 p]; rfl) stream.implementation
    rw [liveAfter_append] at hdead
    simp only [liveStep, Function.update_same] at hdead
    cases hq : (runAll v (ms ++ [.DeallocateStream stream]) w0).stream_map.at_
        stream.implementation with
    | none => rfl
    | some h =>
      rw [hq] at hdead
      exact absurd hdead (by simp)
  · intro ptr
    rw [liveAfter_append]
    simp [liveStep]
  · intro stream
    rw [liveAfter_append]
    simp [liveStep]
  · intro m hop hlive
    have hreg : ∀ p ∈ m.streams, ∃ h, (runAll v ms w0).stream_map.at_ p = some h :=
      fun p hp => (hkeys p).2 (hlive p hp)
    refine ⟨fun p hp => ?_, fun hothers => stream_operation_returns v m _ hop hreg hothers⟩
    obtain ⟨h, hh⟩ := hreg p hp
    exact ⟨h, hh, fun k => by simp [atStream, hh]⟩
  · intro m p hp hdead
    apply stream_operation_faults v m _ p hp
    cases hq : (runAll v ms w0).stream_map.at_ p with
    | none => rfl
    | some h =>
      have := (hkeys p).1 ⟨h, hq⟩
      rw [hdead] at this
      exact absurd this (by decide)

/-- C11, at a concrete sequence from the empty state: the implementations `20` and `21` are
returned, then the stream `20` is deallocated. `BlockHostUntilDone` on the stream `21` returns,
and on the stream `20` it fails at the lookup without a vendor call. -/
theorem live_stream_lookup_safety_witness :
    (∃ ret, (run exampleVendor (.BlockHostUntilDone ⟨21⟩)
      (runAll exampleVendor
        [.GetStreamImplementation 20, .GetStreamImplementation 21, .DeallocateStream ⟨20⟩]
        emptyWorld)).2 = .ok ret) ∧
    ((run exampleVendor (.BlockHostUntilDone ⟨20⟩)
      (runAll exampleVendor
        [.GetStreamImplementation 20, .GetStreamImplementation 21, .DeallocateStream ⟨20⟩]
        emptyWorld)).2 = .error .out_of_range ∧
     newActions
      (runAll exampleVendor
        [.GetStreamImplementation 20, .GetStreamImplementation 21, .DeallocateStream ⟨20⟩]
        emptyWorld)
      (run exampleVendor (.BlockHostUntilDone ⟨20⟩)
        (runAll exampleVendor
          [.GetStreamImplementation 20, .GetStreamImplementation 21, .DeallocateStream ⟨20⟩]
          emptyWorld)) = []) :=
  ⟨((live_stream_lookup_safety exampleVendor emptyWorld (fun _ => rfl)
      [.GetStreamImplementation 20, .GetStreamImplementation 21, .DeallocateStream ⟨20⟩]).2.2.2.1
      (.BlockHostUntilDone ⟨21⟩) (by simp [Method.streams])
      (by simp [Method.streams, liveAfter, liveStep, Function.update_apply])).2 rfl,
   (live_stream_lookup_safety exampleVendor emptyWorld (fun _ => rfl)
      [.GetStreamImplementation 20, .GetStreamImplementation 21, .DeallocateStream ⟨20⟩]).2.2.2.2.1
      (.BlockHostUntilDone ⟨20⟩) 20 (by simp [Method.streams])
      (by simp [liveAfter, liveStep, Function.update_apply])⟩

end tpu


/-! ### Part 2d. The half kernels -/

namespace rocm_kernels

/-- C12. The half and the float variant of each kernel compute the same elementwise function.
Over any totally ordered type with addition and zero the half `AddRelu` launch stores
`max 0 (in0 i + in1 i)`, the float form, and the half `AddNReluGrad` launch stores
`in0 i + in1 i` under the gate `in2 i > 0` and `0` otherwise, the float form; over an ordered
field the half launches equal the float launches. Each of the four launches writes exactly the
cells `0 ≤ i < nthreads`: it leaves every other cell as it was. -/
theorem half_float_agree {α β : Type} [LinearOrderedField α] [LinearOrder β] [Add β] [Zero β]
    (d : LaunchDims) (nthreads : Int) (in0 in1 in2 out : Nat → α) (a b g c : Nat → β) :
    (∀ j : Nat, launchAddRelu_half d nthreads a b c j =
      if (j : Int) < nthreads then max 0 (a j + b j) else c j) ∧
    (∀ j : Nat, launchAddNReluGrad_half d nthreads a b g c j =
      if (j : Int) < nthreads then (if g j > 0 then a j + b j else 0) else c j) ∧
    (∀ j : Nat, launchAddRelu d nthreads in0 in1 out j =
      if (j : Int) < nthreads then max 0 (in0 j + in1 j) else out j) ∧
    (∀ j : Nat, launchAddNReluGrad d nthreads in0 in1 in2 out j =
      if (j : Int) < nthreads then (if in2 j > 0 then in0 j + in1 j else 0) else out j) ∧
    launchAddRelu_half d nthreads in0 in1 out = launchAddRelu d nthreads in0 in1 out ∧
    launchAddNReluGrad_half d nthreads in0 in1 in2 out =
      launchAddNReluGrad d nthreads in0 in1 in2 out := by
  have hform : ∀ {γ : Type} [LinearOrder γ] [Zero γ] (x : γ),
      (if x > 0 then x else 0) = max 0 x := by
    intro γ _ _ x
    by_cases hx : x > 0
    · rw [if_pos hx, max_eq_right hx.le]
    · rw [if_neg hx, max_eq_left (not_lt.1 hx)]
  have hrelu : ∀ {γ : Type} [LinearOrder γ] [Add γ] [Zero γ] (x y z : Nat → γ) (j : Nat),
      launchAddRelu_half d nthreads x y z j =
        if (j : Int) < nthreads then max 0 (x j + y j) else z j := by
    intro γ _ _ _ x y z j
    have h := launch_write d nthreads
      (fun i => if x i + y i > 0 then x i + y i else 0) z j
    rw [← hform (x j + y j)]
    exact h
  have hgrad : ∀ {γ : Type} [LinearOrder γ] [Add γ] [Zero γ] (x y u z : Nat → γ) (j : Nat),
      launchAddNReluGrad_half d nthreads x y u z j =
        if (j : Int) < nthreads then (if u j > 0 then x j + y j else 0) else z j :=
    fun x y u z j => launch_write d nthreads (fun i => if u i > 0 then x i + y i else 0) z j
  have hfrelu : ∀ j : Nat, launchAddRelu d nthreads in0 in1 out j =
      if (j : Int) < nthreads then max 0 (in0 j + in1 j) else out j :=
    fun j => launch_write d nthreads (fun i => max 0 (in0 i + in1 i)) out j
  have hfgrad : ∀ j : Nat, launchAddNReluGrad d nthreads in0 in1 in2 out j =
      if (j : Int) < nthreads then (if in2 j > 0 then in0 j + in1 j else 0) else out j :=
    fun j => launch_write d nthreads (fun i => if in2 i > 0 then in0 i + in1 i else 0) out j
  refine ⟨hrelu a b c, hgrad a b g c, hfrelu, hfgrad, ?_, ?_⟩
  · funext j
    rw [hrelu in0 in1 out j, hfrelu j]
  · funext j
    rw [hgrad in0 in1 in2 out j, hfgrad j]

/-- C12, at a concrete launch: 2 blocks of 3 threads, `nthreads = 8`, rational cells. -/
theorem half_float_agree_witness :
    launchAddRelu_half ⟨2, 3, by decide, by decide⟩ 8 (fun i => (i : ℚ) - 3) (fun _ => 1 / 2)
        (fun _ => 7) =
      launchAddRelu ⟨2, 3, by decide, by decide⟩ 8 (fun i => (i : ℚ) - 3) (fun _ => 1 / 2)
        (fun _ => 7) ∧
    launchAddNReluGrad_half ⟨2, 3, by decide, by decide⟩ 8 (fun i => (i : ℚ) - 3)
        (fun _ => 1 / 2) (fun i => (i : ℚ) - 4) (fun _ => 7) =
      launchAddNReluGrad ⟨2, 3, by decide, by decide⟩ 8 (fun i => (i : ℚ) - 3)
        (fun _ => 1 / 2) (fun i => (i : ℚ) - 4) (fun _ => 7) :=
  ⟨(half_float_agree ⟨2, 3, by decide, by decide⟩ 8 (fun i => (i : ℚ) - 3) (fun _ => 1 / 2)
      (fun i => (i : ℚ) - 4) (fun _ => 7) (fun i => (i : Int)) (fun _ => 1) (fun _ => 0)
      (fun _ => 7)).2.2.2.2.1,
   (half_float_agree ⟨2, 3, by decide, by decide⟩ 8 (fun i => (i : ℚ) - 3) (fun _ => 1 / 2)
      (fun i => (i : ℚ) - 4) (fun _ => 7) (fun i => (i : Int)) (fun _ => 1) (fun _ => 0)
      (fun _ => 7)).2.2.2.2.2⟩

end rocm_kernels

end tensorflow
